import Mathlib

/-
  Shallow embedding of the tundra-xaxlib-python v1 wire codec, message model
  and the 001_nat64 example translation policy.

  Python bytes objects are modelled as `List Nat` (each element < 256 when the
  list comes from a real bytes object).  Fallible Python code (raising
  InvalidMessageDataExc / InvalidWireformatMessageDataExc) is modelled with
  `Except WireErr`.  The 001_nat64 AddressTranslationFailedExc carries only its
  `icmp_bit`, so translation failures are modelled with `Except Bool`.
-/

/-- Modelled from the spec: `MessageType.py` is not under `src/`.  Section 3 of
the specification fixes the enumeration members and their canonical integer
codes 1 to 4 (the lower five bits of the type byte). -/
inductive MessageType where
  | MT_4TO6_MAIN_PACKET
  | MT_4TO6_ICMP_ERROR_PACKET
  | MT_6TO4_MAIN_PACKET
  | MT_6TO4_ICMP_ERROR_PACKET
deriving DecidableEq

/-- Modelled from the spec: the canonical integer code of each member. -/
def MessageType.value : MessageType → Nat
  | .MT_4TO6_MAIN_PACKET => 1
  | .MT_4TO6_ICMP_ERROR_PACKET => 2
  | .MT_6TO4_MAIN_PACKET => 3
  | .MT_6TO4_ICMP_ERROR_PACKET => 4

/-- Modelled from the spec: the value-to-member lookup used when a type byte is
parsed (Python builds a dict from member values; unknown codes are a KeyError). -/
def MessageType.fromValue : Nat → Option MessageType
  | 1 => some .MT_4TO6_MAIN_PACKET
  | 2 => some .MT_4TO6_ICMP_ERROR_PACKET
  | 3 => some .MT_6TO4_MAIN_PACKET
  | 4 => some .MT_6TO4_ICMP_ERROR_PACKET
  | _ => none

/-- Modelled from the spec: `TundraXaxlibConstants.py` is not under `src/`; the
magic byte is the constant 0x54 (ASCII T). -/
def MAGIC_BYTE : Nat := 0x54

/-- Modelled from the spec: `V1Constants.py` is not under `src/`; the protocol
version byte is the constant 1. -/
def PROTOCOL_VERSION : Nat := 1

/-- Modelled from the spec: `V1Constants.py` is not under `src/`; every
wireformat message is exactly 40 bytes. -/
def WIREFORMAT_MESSAGE_SIZE : Nat := 40

/-- Modelled from the spec: `_InternalV1Constants.py` is not under `src/`; bit 7
of the type byte is the response bit. -/
def BITMASK_RESPONSE_BIT : Nat := 0x80

/-- Modelled from the spec: bit 6 of the type byte is the error bit. -/
def BITMASK_ERROR_BIT : Nat := 0x40

/-- Modelled from the spec: bit 5 of the type byte is the icmp bit. -/
def BITMASK_ICMP_BIT : Nat := 0x20

/-- Modelled from the spec: bits 4..0 of the type byte hold the message type
integer code. -/
def BITMASK_MESSAGE_TYPE_INT : Nat := 0x1f

/-- Python `ipaddress.IPv4Address` / `ipaddress.IPv6Address` as a tagged union
of their `.packed` byte strings (4 bytes for v4, 16 bytes for v6). -/
inductive IpAddress where
  | v4 (packed : List Nat)
  | v6 (packed : List Nat)
deriving DecidableEq

/-- The `.packed` bytes of an address object. -/
def IpAddress.packed : IpAddress → List Nat
  | .v4 b => b
  | .v6 b => b

/-- A Python class object `IPv4Address` or `IPv6Address` used as an expected
address version (`Type[IPv4Address]` / `Type[IPv6Address]` in the hints). -/
inductive IpVersion where
  | V4
  | V6
deriving DecidableEq

/-- Python `isinstance(address_object, ip_version_class)`. -/
def IpAddress.isVersion : IpAddress → IpVersion → Bool
  | .v4 _, .V4 => true
  | .v6 _, .V6 => true
  | _, _ => false

/-- An `IpAddress` value that corresponds to a real Python address object: a v4
address packs to exactly 4 bytes and a v6 address to exactly 16, each byte
below 256. -/
def IpAddress.WF : IpAddress → Prop
  | .v4 b => b.length = 4 ∧ ∀ x ∈ b, x < 256
  | .v6 b => b.length = 16 ∧ ∀ x ∈ b, x < 256

instance : DecidablePred IpAddress.WF := fun a => by
  cases a <;> (unfold IpAddress.WF; infer_instance)

instance {e a : Type} [DecidableEq e] [DecidableEq a] : DecidableEq (Except e a) := fun x y => by
  cases x <;> cases y <;> first
    | (apply isFalse; intro h; exact Except.noConfusion h)
    | (rename_i u v; exact if h : u = v then isTrue (by rw [h]) else
        isFalse (fun hc => h (by cases hc; rfl)))

/-- The distinct raise sites of InvalidMessageDataExc and
InvalidWireformatMessageDataExc in the library, each as one tag. -/
inductive WireErr where
  | frameSize
  | magic
  | version
  | unknownMessageType
  | addressPadding
  | requestBitsSet
  | successfulResponseBitsInvalid
  | erroneousResponseBitsInvalid
  | icmpBitNotAllowed
  | cacheLifetimeOutOfRange
  | messageIdentifierOutOfRange
  | ipVersionMismatch
  | assertionFailed
deriving DecidableEq

/-- `_ValidationHelpers.validate_wireformat_size`: a wireformat message must be
exactly 40 bytes. -/
def _ValidationHelpers.validate_wireformat_size (wireformat_bytes : List Nat) :
    Except WireErr Unit :=
  if wireformat_bytes.length ≠ WIREFORMAT_MESSAGE_SIZE then .error .frameSize else .ok ()

/-- `_ValidationHelpers.validate_icmp_bit_for_message_type`: the icmp bit may be
set only for the two MAIN_PACKET message types. -/
def _ValidationHelpers.validate_icmp_bit_for_message_type (message_type : MessageType)
    (icmp_bit : Bool) : Except WireErr Unit :=
  if icmp_bit = true ∧ message_type ≠ .MT_4TO6_MAIN_PACKET ∧ message_type ≠ .MT_6TO4_MAIN_PACKET
  then .error .icmpBitNotAllowed else .ok ()

/-- `_ValidationHelpers.validate_cache_lifetime`: range 0 - 255 (the lower bound
is automatic for `Nat`). -/
def _ValidationHelpers.validate_cache_lifetime (cache_lifetime : Nat) :
    Except WireErr Unit :=
  if cache_lifetime > 255 then .error .cacheLifetimeOutOfRange else .ok ()

/-- `_ValidationHelpers.validate_message_identifier`: range 0 - 4294967295 (the
lower bound is automatic for `Nat`). -/
def _ValidationHelpers.validate_message_identifier (message_identifier : Nat) :
    Except WireErr Unit :=
  if message_identifier > 4294967295 then .error .messageIdentifierOutOfRange else .ok ()

/-- `_MiscHelpers.get_expected_ip_version_for_message_type`. -/
def _MiscHelpers.get_expected_ip_version_for_message_type (message_type : MessageType)
    (expected_4to6_ip_version expected_6to4_ip_version : Option IpVersion) :
    Option IpVersion :=
  match message_type with
  | .MT_4TO6_MAIN_PACKET => expected_4to6_ip_version
  | .MT_4TO6_ICMP_ERROR_PACKET => expected_4to6_ip_version
  | .MT_6TO4_MAIN_PACKET => expected_6to4_ip_version
  | .MT_6TO4_ICMP_ERROR_PACKET => expected_6to4_ip_version

/-- `_ValidationHelpers.validate_ip_address_versions_for_message_type`.  The
Python code asserts that the looked-up expected version is not None; callers
always pass concrete classes, so the `none` branch is unreachable. -/
def _ValidationHelpers.validate_ip_address_versions_for_message_type
    (message_type : MessageType) (source_ip_address destination_ip_address : IpAddress)
    (expected_4to6_ip_version expected_6to4_ip_version : IpVersion) :
    Except WireErr Unit :=
  match _MiscHelpers.get_expected_ip_version_for_message_type message_type
      (some expected_4to6_ip_version) (some expected_6to4_ip_version) with
  | none => .error .assertionFailed
  | some ip_version =>
    if !source_ip_address.isVersion ip_version || !destination_ip_address.isVersion ip_version
    then .error .ipVersionMismatch else .ok ()

/-- `_WireformatHelpers.ParsedWireformat`. -/
structure _WireformatHelpers.ParsedWireformat where
  response_bit : Bool
  error_bit : Bool
  icmp_bit : Bool
  message_type : MessageType
  cache_lifetime : Nat
  message_identifier : Nat
  source_ip_address : Option IpAddress
  destination_ip_address : Option IpAddress
deriving DecidableEq

/-- `_WireformatHelpers._convert_message_type_byte_to_bits_and_message_type`. -/
def _WireformatHelpers._convert_message_type_byte_to_bits_and_message_type
    (message_type_byte : Nat) : Except WireErr (Bool × Bool × Bool × MessageType) :=
  let response_bit := message_type_byte &&& BITMASK_RESPONSE_BIT != 0
  let error_bit := message_type_byte &&& BITMASK_ERROR_BIT != 0
  let icmp_bit := message_type_byte &&& BITMASK_ICMP_BIT != 0
  match MessageType.fromValue (message_type_byte &&& BITMASK_MESSAGE_TYPE_INT) with
  | none => .error .unknownMessageType
  | some message_type => .ok (response_bit, error_bit, icmp_bit, message_type)

/-- `_WireformatHelpers._convert_16_bytes_to_optional_ip_address_object`.  When
an IPv4 address is expected the last 12 bytes must be zero; when a version is
not expected (`None`, the erroneous response case) the bytes are returned as
`None` without any inspection.  The source asserts that the field is exactly
16 bytes; the codec always passes 16-byte slices, so the assert always passes
there, and statements about this function on its own carry an explicit
16-byte hypothesis standing for that assert. -/
def _WireformatHelpers._convert_16_bytes_to_optional_ip_address_object
    (ip_address_bytes : List Nat) (ip_version : Option IpVersion) :
    Except WireErr (Option IpAddress) :=
  match ip_version with
  | some .V4 =>
    if ip_address_bytes.drop 4 ≠ List.replicate 12 0 then .error .addressPadding
    else .ok (some (.v4 (ip_address_bytes.take 4)))
  | some .V6 => .ok (some (.v6 ip_address_bytes))
  | none => .ok none

/-- `_WireformatHelpers.from_wireformat`.  The first eight bytes are unpacked
with `struct.unpack("!cBBBI", ...)`: magic byte, protocol version, type byte,
cache lifetime and a big-endian unsigned 32-bit message identifier. -/
def _WireformatHelpers.from_wireformat (wireformat_bytes : List Nat)
    (expected_4to6_ip_version expected_6to4_ip_version : Option IpVersion) :
    Except WireErr _WireformatHelpers.ParsedWireformat :=
  match _ValidationHelpers.validate_wireformat_size wireformat_bytes with
  | .error e => .error e
  | .ok () =>
    let magic_byte := wireformat_bytes.getD 0 0
    let protocol_version := wireformat_bytes.getD 1 0
    let message_type_byte := wireformat_bytes.getD 2 0
    let cache_lifetime := wireformat_bytes.getD 3 0
    let message_identifier :=
      wireformat_bytes.getD 4 0 * 16777216 + wireformat_bytes.getD 5 0 * 65536 +
      wireformat_bytes.getD 6 0 * 256 + wireformat_bytes.getD 7 0
    if magic_byte ≠ MAGIC_BYTE then .error .magic
    else if protocol_version ≠ PROTOCOL_VERSION then .error .version
    else
      match _WireformatHelpers._convert_message_type_byte_to_bits_and_message_type
          message_type_byte with
      | .error e => .error e
      | .ok (response_bit, error_bit, icmp_bit, message_type) =>
        let ip_version := _MiscHelpers.get_expected_ip_version_for_message_type
          message_type expected_4to6_ip_version expected_6to4_ip_version
        match _WireformatHelpers._convert_16_bytes_to_optional_ip_address_object
            ((wireformat_bytes.drop 8).take 16) ip_version with
        | .error e => .error e
        | .ok source_ip_address =>
          match _WireformatHelpers._convert_16_bytes_to_optional_ip_address_object
              ((wireformat_bytes.drop 24).take 16) ip_version with
          | .error e => .error e
          | .ok destination_ip_address =>
            .ok ⟨response_bit, error_bit, icmp_bit, message_type, cache_lifetime,
                 message_identifier, source_ip_address, destination_ip_address⟩

/-- `_WireformatHelpers._convert_bits_and_message_type_to_message_type_byte`. -/
def _WireformatHelpers._convert_bits_and_message_type_to_message_type_byte
    (response_bit error_bit icmp_bit : Bool) (message_type : MessageType) : Nat :=
  let b0 := message_type.value
  let b1 := if response_bit then b0 ||| BITMASK_RESPONSE_BIT else b0
  let b2 := if error_bit then b1 ||| BITMASK_ERROR_BIT else b1
  if icmp_bit then b2 ||| BITMASK_ICMP_BIT else b2

/-- `_WireformatHelpers._convert_optional_ip_address_object_to_16_bytes`:
`None` becomes sixteen zero bytes; otherwise `(packed + 12 zero bytes)[0:16]`. -/
def _WireformatHelpers._convert_optional_ip_address_object_to_16_bytes
    (ip_address_object : Option IpAddress) : List Nat :=
  match ip_address_object with
  | none => List.replicate 16 0
  | some a => (a.packed ++ List.replicate 12 0).take 16

/-- `_WireformatHelpers.to_wireformat`.  `struct.pack("!cBBBI", ...)` writes the
message identifier as four big-endian base-256 digits. -/
def _WireformatHelpers.to_wireformat (response_bit error_bit icmp_bit : Bool)
    (message_type : MessageType) (cache_lifetime message_identifier : Nat)
    (source_ip_address destination_ip_address : Option IpAddress) : List Nat :=
  let message_type_byte := _WireformatHelpers._convert_bits_and_message_type_to_message_type_byte
    response_bit error_bit icmp_bit message_type
  let first_8_bytes := [MAGIC_BYTE, PROTOCOL_VERSION, message_type_byte, cache_lifetime,
    message_identifier / 16777216 % 256, message_identifier / 65536 % 256,
    message_identifier / 256 % 256, message_identifier % 256]
  first_8_bytes ++
    _WireformatHelpers._convert_optional_ip_address_object_to_16_bytes source_ip_address ++
    _WireformatHelpers._convert_optional_ip_address_object_to_16_bytes destination_ip_address

/-- `RequestMessage` (frozen dataclass fields). -/
structure RequestMessage where
  message_type : MessageType
  message_identifier : Nat
  source_ip_address : IpAddress
  destination_ip_address : IpAddress
deriving DecidableEq

/-- `RequestMessage.__post_init__` together with the dataclass constructor: a
request validates its message identifier and that both addresses have the
pre-translation version expected for its message type (v4 for 4TO6, v6 for
6TO4). -/
def RequestMessage.mk_validated (message_type : MessageType) (message_identifier : Nat)
    (source_ip_address destination_ip_address : IpAddress) :
    Except WireErr RequestMessage :=
  match _ValidationHelpers.validate_message_identifier message_identifier with
  | .error e => .error e
  | .ok () =>
    match _ValidationHelpers.validate_ip_address_versions_for_message_type
        message_type source_ip_address destination_ip_address .V4 .V6 with
    | .error e => .error e
    | .ok () => .ok ⟨message_type, message_identifier, source_ip_address, destination_ip_address⟩

/-- `RequestMessage.from_wireformat`.  The Python code asserts that both parsed
addresses are present before checking that all three flag bits are unset. -/
def RequestMessage.from_wireformat (wireformat_bytes : List Nat) :
    Except WireErr RequestMessage :=
  match _WireformatHelpers.from_wireformat wireformat_bytes (some .V4) (some .V6) with
  | .error e => .error e
  | .ok pw =>
    match pw.source_ip_address, pw.destination_ip_address with
    | some s, some d =>
      if pw.response_bit || pw.error_bit || pw.icmp_bit then .error .requestBitsSet
      else RequestMessage.mk_validated pw.message_type pw.message_identifier s d
    | _, _ => .error .assertionFailed

/-- `RequestMessage.to_wireformat`. -/
def RequestMessage.to_wireformat (m : RequestMessage) : List Nat :=
  _WireformatHelpers.to_wireformat false false false m.message_type 0
    m.message_identifier (some m.source_ip_address) (some m.destination_ip_address)

/-- `SuccessfulResponseMessage` (frozen dataclass fields). -/
structure SuccessfulResponseMessage where
  message_type : MessageType
  cache_lifetime : Nat
  message_identifier : Nat
  source_ip_address : IpAddress
  destination_ip_address : IpAddress
deriving DecidableEq

/-- `SuccessfulResponseMessage.__post_init__` together with the dataclass
constructor: validates the cache lifetime, the message identifier and that both
addresses have the post-translation version expected for the message type (v6
for 4TO6, v4 for 6TO4). -/
def SuccessfulResponseMessage.mk_validated (message_type : MessageType)
    (cache_lifetime message_identifier : Nat)
    (source_ip_address destination_ip_address : IpAddress) :
    Except WireErr SuccessfulResponseMessage :=
  match _ValidationHelpers.validate_cache_lifetime cache_lifetime with
  | .error e => .error e
  | .ok () =>
    match _ValidationHelpers.validate_message_identifier message_identifier with
    | .error e => .error e
    | .ok () =>
      match _ValidationHelpers.validate_ip_address_versions_for_message_type
          message_type source_ip_address destination_ip_address .V6 .V4 with
      | .error e => .error e
      | .ok () => .ok ⟨message_type, cache_lifetime, message_identifier,
          source_ip_address, destination_ip_address⟩

/-- `SuccessfulResponseMessage.from_wireformat`: the response bit must be set,
the error and icmp bits unset. -/
def SuccessfulResponseMessage.from_wireformat (wireformat_bytes : List Nat) :
    Except WireErr SuccessfulResponseMessage :=
  match _WireformatHelpers.from_wireformat wireformat_bytes (some .V6) (some .V4) with
  | .error e => .error e
  | .ok pw =>
    match pw.source_ip_address, pw.destination_ip_address with
    | some s, some d =>
      if !pw.response_bit || pw.error_bit || pw.icmp_bit then
        .error .successfulResponseBitsInvalid
      else SuccessfulResponseMessage.mk_validated pw.message_type pw.cache_lifetime
        pw.message_identifier s d
    | _, _ => .error .assertionFailed

/-- `SuccessfulResponseMessage.to_wireformat`. -/
def SuccessfulResponseMessage.to_wireformat (m : SuccessfulResponseMessage) : List Nat :=
  _WireformatHelpers.to_wireformat true false false m.message_type m.cache_lifetime
    m.message_identifier (some m.source_ip_address) (some m.destination_ip_address)

/-- `ErroneousResponseMessage` (frozen dataclass fields). -/
structure ErroneousResponseMessage where
  icmp_bit : Bool
  message_type : MessageType
  message_identifier : Nat
deriving DecidableEq

/-- `ErroneousResponseMessage.__post_init__` together with the dataclass
constructor: validates the icmp bit against the message type and the message
identifier. -/
def ErroneousResponseMessage.mk_validated (icmp_bit : Bool) (message_type : MessageType)
    (message_identifier : Nat) : Except WireErr ErroneousResponseMessage :=
  match _ValidationHelpers.validate_icmp_bit_for_message_type message_type icmp_bit with
  | .error e => .error e
  | .ok () =>
    match _ValidationHelpers.validate_message_identifier message_identifier with
    | .error e => .error e
    | .ok () => .ok ⟨icmp_bit, message_type, message_identifier⟩

/-- `ErroneousResponseMessage.from_wireformat`: both expected address versions
are `None`, so the parsed addresses are `None`; both the response bit and the
error bit must be set. -/
def ErroneousResponseMessage.from_wireformat (wireformat_bytes : List Nat) :
    Except WireErr ErroneousResponseMessage :=
  match _WireformatHelpers.from_wireformat wireformat_bytes none none with
  | .error e => .error e
  | .ok pw =>
    match pw.source_ip_address, pw.destination_ip_address with
    | none, none =>
      if !pw.response_bit || !pw.error_bit then .error .erroneousResponseBitsInvalid
      else ErroneousResponseMessage.mk_validated pw.icmp_bit pw.message_type
        pw.message_identifier
    | _, _ => .error .assertionFailed

/-- `ErroneousResponseMessage.to_wireformat`. -/
def ErroneousResponseMessage.to_wireformat (m : ErroneousResponseMessage) : List Nat :=
  _WireformatHelpers.to_wireformat true true m.icmp_bit m.message_type 0
    m.message_identifier none none

/-- `RequestMessage.generate_successful_response`: builds a successful response
inheriting the message type and identifier; the dataclass re-validates. -/
def RequestMessage.generate_successful_response (m : RequestMessage)
    (cache_lifetime : Nat) (source_ip_address destination_ip_address : IpAddress) :
    Except WireErr SuccessfulResponseMessage :=
  SuccessfulResponseMessage.mk_validated m.message_type cache_lifetime
    m.message_identifier source_ip_address destination_ip_address

/-- `RequestMessage.generate_erroneous_response`: builds an erroneous response
inheriting the message type and identifier; the dataclass re-validates. -/
def RequestMessage.generate_erroneous_response (m : RequestMessage) (icmp_bit : Bool) :
    Except WireErr ErroneousResponseMessage :=
  ErroneousResponseMessage.mk_validated icmp_bit m.message_type m.message_identifier

/-- The three message classes `detect_message_class_from_wireformat` can
return. -/
inductive DetectedMessageClass where
  | request
  | successfulResponse
  | erroneousResponse
deriving DecidableEq

/-- `WireformatParsingHelpers.detect_message_class_from_wireformat`: minimal
validation, dispatch on bits 7 and 6 of the type byte. -/
def WireformatParsingHelpers.detect_message_class_from_wireformat
    (wireformat_bytes : List Nat) : Except WireErr DetectedMessageClass :=
  match _ValidationHelpers.validate_wireformat_size wireformat_bytes with
  | .error e => .error e
  | .ok () =>
    let message_type_byte := wireformat_bytes.getD 2 0
    if message_type_byte &&& BITMASK_RESPONSE_BIT != 0 then
      if message_type_byte &&& BITMASK_ERROR_BIT != 0 then .ok .erroneousResponse
      else .ok .successfulResponse
    else .ok .request

/-- The union type returned by
`instantiate_appropriate_message_class_from_wireformat`. -/
inductive Message where
  | request (m : RequestMessage)
  | successfulResponse (m : SuccessfulResponseMessage)
  | erroneousResponse (m : ErroneousResponseMessage)
deriving DecidableEq

/-- `WireformatParsingHelpers.instantiate_appropriate_message_class_from_wireformat`:
detect the class, then call its `from_wireformat`. -/
def WireformatParsingHelpers.instantiate_appropriate_message_class_from_wireformat
    (wireformat_bytes : List Nat) : Except WireErr Message :=
  match WireformatParsingHelpers.detect_message_class_from_wireformat wireformat_bytes with
  | .error e => .error e
  | .ok .request =>
    match RequestMessage.from_wireformat wireformat_bytes with
    | .error e => .error e
    | .ok m => .ok (.request m)
  | .ok .successfulResponse =>
    match SuccessfulResponseMessage.from_wireformat wireformat_bytes with
    | .error e => .error e
    | .ok m => .ok (.successfulResponse m)
  | .ok .erroneousResponse =>
    match ErroneousResponseMessage.from_wireformat wireformat_bytes with
    | .error e => .error e
    | .ok m => .ok (.erroneousResponse m)

/-- Encoding of a message of any variant. -/
def Message.to_wireformat : Message → List Nat
  | .request m => m.to_wireformat
  | .successfulResponse m => m.to_wireformat
  | .erroneousResponse m => m.to_wireformat

/-- A well-formed message: its addresses correspond to real Python address
objects and its fields pass the validations its Python dataclass runs in
`__post_init__` (so the value is constructible). -/
def Message.WF : Message → Prop
  | .request m => m.source_ip_address.WF ∧ m.destination_ip_address.WF ∧
      RequestMessage.mk_validated m.message_type m.message_identifier
        m.source_ip_address m.destination_ip_address = .ok m
  | .successfulResponse m => m.source_ip_address.WF ∧ m.destination_ip_address.WF ∧
      SuccessfulResponseMessage.mk_validated m.message_type m.cache_lifetime
        m.message_identifier m.source_ip_address m.destination_ip_address = .ok m
  | .erroneousResponse m =>
      ErroneousResponseMessage.mk_validated m.icmp_bit m.message_type
        m.message_identifier = .ok m

instance : DecidablePred Message.WF := fun m => by
  cases m <;> simp only [Message.WF] <;> infer_instance

/-- `Settings.NAT64_IPV4` of the 001_nat64 example: 192.168.64.2. -/
def NAT64_IPV4 : IpAddress := .v4 [192, 168, 64, 2]

/-- `Settings.NAT64_IPV6` of the 001_nat64 example: fd64::2. -/
def NAT64_IPV6 : IpAddress := .v6 [0xfd, 0x64, 0, 0, 0, 0, 0, 0, 0, 0, 0, 0, 0, 0, 0, 2]

/-- The `.network_address.packed` bytes of `Settings.NAT64_PREFIX`
(64:ff9b::/96) in the 001_nat64 example. -/
def NAT64_PREFIX_network_address_packed : List Nat :=
  [0x00, 0x64, 0xff, 0x9b, 0, 0, 0, 0, 0, 0, 0, 0, 0, 0, 0, 0]

/-- The `.prefixlen` of `Settings.NAT64_PREFIX` (the example asserts it is
96 at startup). -/
def NAT64_PREFIX_prefixlen : Nat := 96

/-- `Settings.ALLOW_TRANSLATION_OF_PRIVATE_IPS` of the 001_nat64 example. -/
def ALLOW_TRANSLATION_OF_PRIVATE_IPS : Bool := true

/-- `Settings.CACHE_LIFETIME` of the 001_nat64 example. -/
def CACHE_LIFETIME : Nat := 5

/-- Python `ipaddress` `is_unspecified`: 0.0.0.0 for v4, :: for v6. -/
def IpAddress.is_unspecified : IpAddress → Bool
  | .v4 b => b == [0, 0, 0, 0]
  | .v6 b => b == List.replicate 16 0

/-- Python `ipaddress` `is_loopback`: 127.0.0.0/8 for v4, ::1 for v6. -/
def IpAddress.is_loopback : IpAddress → Bool
  | .v4 b => b.getD 0 0 == 127
  | .v6 b => b == List.replicate 15 0 ++ [1]

/-- Python `ipaddress` `is_multicast`: 224.0.0.0/4 for v4, ff00::/8 for v6. -/
def IpAddress.is_multicast : IpAddress → Bool
  | .v4 b => b.getD 0 0 &&& 0xf0 == 224
  | .v6 b => b.getD 0 0 == 0xff

/-- Python `ipaddress` `is_private`: membership in the private network lists of
the CPython standard library (`_private_networks` in `ipaddress.py`, CPython
3.8 - 3.12), written out as byte conditions per network. -/
def IpAddress.is_private : IpAddress → Bool
  | .v4 b =>
    let b0 := b.getD 0 0
    let b1 := b.getD 1 0
    let b2 := b.getD 2 0
    let b3 := b.getD 3 0
    decide (b0 = 0 ∨ b0 = 10 ∨ b0 = 127 ∨ (b0 = 169 ∧ b1 = 254) ∨
      (b0 = 172 ∧ 16 ≤ b1 ∧ b1 ≤ 31) ∨ (b0 = 192 ∧ b1 = 0 ∧ b2 = 0 ∧ b3 ≤ 7) ∨
      (b0 = 192 ∧ b1 = 0 ∧ b2 = 0 ∧ (b3 = 170 ∨ b3 = 171)) ∨
      (b0 = 192 ∧ b1 = 0 ∧ b2 = 2) ∨ (b0 = 192 ∧ b1 = 168) ∨
      (b0 = 198 ∧ (b1 = 18 ∨ b1 = 19)) ∨ (b0 = 198 ∧ b1 = 51 ∧ b2 = 100) ∨
      (b0 = 203 ∧ b1 = 0 ∧ b2 = 113) ∨ 240 ≤ b0)
  | .v6 b =>
    let b0 := b.getD 0 0
    let b1 := b.getD 1 0
    let b2 := b.getD 2 0
    let b3 := b.getD 3 0
    decide (b = List.replicate 15 0 ++ [1] ∨ b = List.replicate 16 0 ∨
      (b.take 10 = List.replicate 10 0 ∧ b.getD 10 0 = 255 ∧ b.getD 11 0 = 255) ∨
      (b.take 8 = [1, 0, 0, 0, 0, 0, 0, 0]) ∨
      (b0 = 0x20 ∧ b1 = 1 ∧ b2 ≤ 1) ∨
      (b0 = 0x20 ∧ b1 = 1 ∧ b2 = 0 ∧ b3 = 2 ∧ b.getD 4 0 = 0 ∧ b.getD 5 0 = 0) ∨
      (b0 = 0x20 ∧ b1 = 1 ∧ b2 = 0x0d ∧ b3 = 0xb8) ∨
      (b0 = 0x20 ∧ b1 = 1 ∧ b2 = 0 ∧ b3 &&& 0xf0 = 0x10) ∨
      b0 &&& 0xfe = 0xfc ∨ (b0 = 0xfe ∧ b1 &&& 0xc0 = 0x80))

/-- Python comparison of an `int` with a `bytes` object: the types differ, both
dunder-eq implementations return NotImplemented, and the comparison evaluates
to False for every pair of operands.  `check_if_ip_address_is_usable` compares
`packed_ip_address[0]` (an int, since indexing a bytes object yields an int)
with a one-byte bytes literal, so that comparison can never be true. -/
def pyIntEqBytes (_n : Nat) (_bs : List Nat) : Bool :=
  false

/-- `check_if_ip_address_is_usable` of 001_nat64; failure carries the icmp bit
of the AddressTranslationFailedExc raised. -/
def check_if_ip_address_is_usable (ip_address : IpAddress) : Except Bool Unit :=
  if ip_address.is_unspecified || ip_address.is_loopback || ip_address.is_multicast then
    .error false
  else
    match ip_address with
    | .v4 b =>
      if pyIntEqBytes (b.getD 0 0) [0] || b == [255, 255, 255, 255] then .error false
      else .ok ()
    | .v6 _ => .ok ()

/-- `check_if_ip_address_is_not_private_if_needed` of 001_nat64, with the
configuration constant as an explicit parameter. -/
def check_if_ip_address_is_not_private_if_needed
    (allow_translation_of_private_ips : Bool) (ip_address : IpAddress) :
    Except Bool Unit :=
  if !allow_translation_of_private_ips && ip_address.is_private then .error true
  else .ok ()

/-- `perform_prefix_4to6_translation` of 001_nat64: the first 12 bytes of the
NAT64 prefix followed by the packed IPv4 address. -/
def perform_prefix_4to6_translation (ipv4_address : IpAddress) : IpAddress :=
  .v6 ( NAT64_PREFIX_network_address_packed.take 12 ++ ipv4_address.packed)

/-- `perform_prefix_6to4_translation` of 001_nat64: membership of the address
in the /96 prefix network is equality of the first 12 bytes (and Python network
membership is False outright for an address of the other version). -/
def perform_prefix_6to4_translation ( ipv4_in_nat64_prefix : IpAddress) :
    Except Bool IpAddress :=
  match ipv4_in_nat64_prefix with
  | .v6 b =>
    if b.take 12 == NAT64_PREFIX_network_address_packed.take 12 then .ok (.v4 (b.drop 12))
    else .error false
  | .v4 _ => .error false

/-- `perform_translator_ip_4to6_translation` of 001_nat64. -/
def perform_translator_ip_4to6_translation (ipv4_address : IpAddress) :
    Except Bool IpAddress :=
  if ipv4_address = NAT64_IPV4 then .ok NAT64_IPV6 else .error false

/-- `perform_translator_ip_6to4_translation` of 001_nat64. -/
def perform_translator_ip_6to4_translation (ipv6_address : IpAddress) :
    Except Bool IpAddress :=
  if ipv6_address = NAT64_IPV6 then .ok NAT64_IPV4 else .error false

/-- `perform_address_translation` of 001_nat64, with the
ALLOW_TRANSLATION_OF_PRIVATE_IPS configuration constant as an explicit
parameter.  In the two branches whose returned pair contains one total
transformation (`perform_prefix_4to6_translation`), Python evaluates the tuple
left to right; since the total transformation cannot raise, binding the
fallible one first is observationally identical. -/
def perform_address_translation (allow_translation_of_private_ips : Bool)
    (message_type : MessageType) (source_ip_address destination_ip_address : IpAddress) :
    Except Bool (IpAddress × IpAddress) :=
  match message_type with
  | .MT_4TO6_MAIN_PACKET =>
    match check_if_ip_address_is_usable source_ip_address with
    | .error b => .error b
    | .ok () =>
      match check_if_ip_address_is_usable destination_ip_address with
      | .error b => .error b
      | .ok () =>
        match check_if_ip_address_is_not_private_if_needed
            allow_translation_of_private_ips source_ip_address with
        | .error b => .error b
        | .ok () =>
          match check_if_ip_address_is_not_private_if_needed
              allow_translation_of_private_ips destination_ip_address with
          | .error b => .error b
          | .ok () =>
            match perform_translator_ip_4to6_translation destination_ip_address with
            | .error b => .error b
            | .ok d => .ok (perform_prefix_4to6_translation source_ip_address, d)
  | .MT_4TO6_ICMP_ERROR_PACKET =>
    match perform_translator_ip_4to6_translation source_ip_address with
    | .error b => .error b
    | .ok s => .ok (s, perform_prefix_4to6_translation destination_ip_address)
  | .MT_6TO4_MAIN_PACKET =>
    match check_if_ip_address_is_usable source_ip_address with
    | .error b => .error b
    | .ok () =>
      match check_if_ip_address_is_usable destination_ip_address with
      | .error b => .error b
      | .ok () =>
        match check_if_ip_address_is_not_private_if_needed
            allow_translation_of_private_ips source_ip_address with
        | .error b => .error b
        | .ok () =>
          match check_if_ip_address_is_not_private_if_needed
              allow_translation_of_private_ips destination_ip_address with
          | .error b => .error b
          | .ok () =>
            match perform_translator_ip_6to4_translation source_ip_address with
            | .error b => .error b
            | .ok s =>
              match perform_prefix_6to4_translation destination_ip_address with
              | .error b => .error b
              | .ok d => .ok (s, d)
  | .MT_6TO4_ICMP_ERROR_PACKET =>
    match perform_prefix_6to4_translation source_ip_address with
    | .error b => .error b
    | .ok s =>
      match perform_translator_ip_6to4_translation destination_ip_address with
      | .error b => .error b
      | .ok d => .ok (s, d)

/-- The response computed by `handle_client_request` of 001_nat64 for one
decoded request (the pure core of the handler): translate, then build either an
erroneous response carrying the failure icmp bit or a successful response
carrying the configured cache lifetime. -/
def handle_client_request_response (allow_translation_of_private_ips : Bool)
    (request_message : RequestMessage) : Except WireErr Message :=
  match perform_address_translation allow_translation_of_private_ips
      request_message.message_type request_message.source_ip_address
      request_message.destination_ip_address with
  | .error icmp =>
    match request_message.generate_erroneous_response icmp with
    | .error e => .error e
    | .ok m => .ok (.erroneousResponse m)
  | .ok (s, d) =>
    match request_message.generate_successful_response CACHE_LIFETIME s d with
    | .error e => .error e
    | .ok m => .ok (.successfulResponse m)

/-- Modelled from the spec: the per-message-type mapping table of section 4.3,
written as the table reads (sanity checks applied to both addresses of a
MAIN_PACKET request, none for an ICMP_ERROR_PACKET, then the source and
destination transforms of the corresponding table row). -/
def spec_per_message_type_mapping (allow_translation_of_private_ips : Bool)
    (message_type : MessageType) (source_ip_address destination_ip_address : IpAddress) :
    Except Bool (IpAddress × IpAddress) :=
  let sanity_checks : Except Bool Unit := do
    check_if_ip_address_is_usable source_ip_address
    check_if_ip_address_is_usable destination_ip_address
    check_if_ip_address_is_not_private_if_needed allow_translation_of_private_ips
      source_ip_address
    check_if_ip_address_is_not_private_if_needed allow_translation_of_private_ips
      destination_ip_address
  match message_type with
  | .MT_4TO6_MAIN_PACKET => do
    sanity_checks
    let d ← perform_translator_ip_4to6_translation destination_ip_address
    return (perform_prefix_4to6_translation source_ip_address, d)
  | .MT_4TO6_ICMP_ERROR_PACKET => do
    let s ← perform_translator_ip_4to6_translation source_ip_address
    return (s, perform_prefix_4to6_translation destination_ip_address)
  | .MT_6TO4_MAIN_PACKET => do
    sanity_checks
    let s ← perform_translator_ip_6to4_translation source_ip_address
    let d ← perform_prefix_6to4_translation destination_ip_address
    return (s, d)
  | .MT_6TO4_ICMP_ERROR_PACKET => do
    let s ← perform_prefix_6to4_translation source_ip_address
    let d ← perform_translator_ip_6to4_translation destination_ip_address
    return (s, d)

/-! ### Shared helper lemmas -/

lemma validate_message_identifier_ok {mid : Nat}
    (h : _ValidationHelpers.validate_message_identifier mid = .ok ()) :
    mid ≤ 4294967295 := by
  unfold _ValidationHelpers.validate_message_identifier at h
  split at h
  · exact Except.noConfusion h
  · omega

lemma usable_error_false (a : IpAddress) (b : Bool)
    (h : check_if_ip_address_is_usable a = .error b) : b = false := by
  unfold check_if_ip_address_is_usable at h
  split at h
  · injection h with h; exact h.symm
  · split at h
    · split at h
      · injection h with h; exact h.symm
      · exact Except.noConfusion h
    · exact Except.noConfusion h

lemma translator_ip_4to6_error_false (a : IpAddress) (b : Bool)
    (h : perform_translator_ip_4to6_translation a = .error b) : b = false := by
  unfold perform_translator_ip_4to6_translation at h
  split at h
  · exact Except.noConfusion h
  · injection h with h; exact h.symm

lemma translator_ip_6to4_error_false (a : IpAddress) (b : Bool)
    (h : perform_translator_ip_6to4_translation a = .error b) : b = false := by
  unfold perform_translator_ip_6to4_translation at h
  split at h
  · exact Except.noConfusion h
  · injection h with h; exact h.symm

lemma prefix_6to4_error_false (a : IpAddress) (b : Bool)
    (h : perform_prefix_6to4_translation a = .error b) : b = false := by
  unfold perform_prefix_6to4_translation at h
  split at h
  · split at h
    · exact Except.noConfusion h
    · injection h with h; exact h.symm
  · injection h with h; exact h.symm

/-! ### C8 -/

/-- C8: for every IPv4 address, embedding it into the /96 NAT64 prefix with
`perform_prefix_4to6_translation` and then extracting it with
`perform_prefix_6to4_translation` yields the original address, under the
precondition (asserted by the example at startup) that the NAT64 prefix length
is 96. -/
theorem c8_prefix_embedding_roundtrip (b : List Nat) (h4 : b.length = 4)
    (hp : NAT64_PREFIX_prefixlen = 96) :
    perform_prefix_6to4_translation (perform_prefix_4to6_translation (.v4 b)) =
      .ok (.v4 b) := by
  have hp12 : ( NAT64_PREFIX_network_address_packed.take 12).length = 12 := by decide
  simp [perform_prefix_4to6_translation, perform_prefix_6to4_translation, IpAddress.packed,
    List.take_left' hp12, List.drop_left' hp12]

/-- Witness for C8 at the concrete address 8.8.8.8. -/
theorem c8_prefix_embedding_roundtrip_witness :
    perform_prefix_6to4_translation (perform_prefix_4to6_translation (.v4 [8, 8, 8, 8])) =
      .ok (.v4 [8, 8, 8, 8]) :=
  c8_prefix_embedding_roundtrip [8, 8, 8, 8] (by decide) (by decide)

/-! ### C10 -/

/-- C10: for every request whose message type is one of the two
ICMP_ERROR_PACKET variants, `generate_erroneous_response` with icmp bit set
fails with the icmp-bit validation error (the factory re-validates the
inherited message type against the requested icmp bit), so no
ErroneousResponseMessage is constructed. -/
theorem c10_generate_erroneous_response_icmp_rejected (r : RequestMessage)
    (h : r.message_type = .MT_4TO6_ICMP_ERROR_PACKET ∨
         r.message_type = .MT_6TO4_ICMP_ERROR_PACKET) :
    r.generate_erroneous_response true = .error .icmpBitNotAllowed := by
  rcases h with h | h <;>
    simp [RequestMessage.generate_erroneous_response, ErroneousResponseMessage.mk_validated,
      _ValidationHelpers.validate_icmp_bit_for_message_type, h]

/-- Witness for C10 at a concrete 4TO6 ICMP-error request. -/
theorem c10_generate_erroneous_response_icmp_rejected_witness :
    RequestMessage.generate_erroneous_response
      ⟨.MT_4TO6_ICMP_ERROR_PACKET, 0, .v4 [1, 2, 3, 4], .v4 [5, 6, 7, 8]⟩ true =
      .error .icmpBitNotAllowed :=
  c10_generate_erroneous_response_icmp_rejected _ (Or.inl rfl)

/-! ### C5 -/

/-- C5: evaluation of the code at the failing input.  The address 0.1.2.3 has
first octet 0x00, yet `check_if_ip_address_is_usable` accepts it (the Python
comparison of the int `packed[0]` with a bytes literal is always False), and a
4TO6 main-packet translation from it succeeds instead of failing with
icmp_bit=false. -/
theorem c5_first_octet_check_is_dead_code :
    check_if_ip_address_is_usable (.v4 [0, 1, 2, 3]) = .ok () ∧
    perform_address_translation true .MT_4TO6_MAIN_PACKET (.v4 [0, 1, 2, 3])
        (.v4 [192, 168, 64, 2]) =
      .ok (.v6 [0, 0x64, 0xff, 0x9b, 0, 0, 0, 0, 0, 0, 0, 0, 0, 1, 2, 3],
           .v6 [0xfd, 0x64, 0, 0, 0, 0, 0, 0, 0, 0, 0, 0, 0, 0, 0, 2]) := by
  exact ⟨rfl, rfl⟩

/-! ### C6 -/

/-- C6 counterexample: 127.0.0.1 is private (127.0.0.0/8 is in the private
network list), yet with ALLOW_TRANSLATION_OF_PRIVATE_IPS = false a 4TO6
main-packet request with it as source fails with icmp_bit = false, not true,
because the usability check runs before the privacy check. -/
theorem c6_private_loopback_fails_icmp_false :
    IpAddress.is_private (.v4 [127, 0, 0, 1]) = true ∧
    perform_address_translation false .MT_4TO6_MAIN_PACKET (.v4 [127, 0, 0, 1])
        (.v4 [8, 8, 8, 8]) = .error false := by
  exact ⟨rfl, rfl⟩

/-- C6 (amended): with ALLOW_TRANSLATION_OF_PRIVATE_IPS = false, every
main-packet request whose source or destination is private fails translation,
and the failure carries icmp_bit = true whenever both addresses pass the
usability check (the usability check runs first and carries icmp_bit = false). -/
theorem c6_private_address_always_fails (mt : MessageType) (src dst : IpAddress)
    (hmt : mt = .MT_4TO6_MAIN_PACKET ∨ mt = .MT_6TO4_MAIN_PACKET)
    (hpriv : src.is_private = true ∨ dst.is_private = true) :
    (∃ b, perform_address_translation false mt src dst = .error b) ∧
    (check_if_ip_address_is_usable src = .ok () →
     check_if_ip_address_is_usable dst = .ok () →
     perform_address_translation false mt src dst = .error true) := by
  have hnp : ∀ a : IpAddress, a.is_private = true →
      check_if_ip_address_is_not_private_if_needed false a = .error true := by
    intro a ha
    simp [check_if_ip_address_is_not_private_if_needed, ha]
  have hnp2 : ∀ a : IpAddress, a.is_private = false →
      check_if_ip_address_is_not_private_if_needed false a = .ok () := by
    intro a ha
    simp [check_if_ip_address_is_not_private_if_needed, ha]
  rcases hmt with rfl | rfl <;>
    cases hs : check_if_ip_address_is_usable src with
    | error b =>
      exact ⟨⟨b, by simp [perform_address_translation, hs]⟩,
             fun hok _ => Except.noConfusion hok⟩
    | ok u =>
      cases u
      cases hd : check_if_ip_address_is_usable dst with
      | error b =>
        exact ⟨⟨b, by simp [perform_address_translation, hs, hd]⟩,
               fun _ hok => Except.noConfusion hok⟩
      | ok u =>
        cases u
        cases hsp : src.is_private with
        | true =>
          exact ⟨⟨true, by simp [perform_address_translation, hs, hd, hnp src hsp]⟩,
                 fun _ _ => by simp [perform_address_translation, hs, hd, hnp src hsp]⟩
        | false =>
          have hdp : dst.is_private = true := by
            rcases hpriv with h | h
            · rw [hsp] at h; exact Bool.noConfusion h
            · exact h
          exact ⟨⟨true, by
                  simp [perform_address_translation, hs, hd, hnp2 src hsp, hnp dst hdp]⟩,
                 fun _ _ => by
                  simp [perform_address_translation, hs, hd, hnp2 src hsp, hnp dst hdp]⟩

/-- Witness for C6 at the concrete private (10.0.0.1) source of a 4TO6
main-packet request. -/
theorem c6_private_address_always_fails_witness :
    (∃ b, perform_address_translation false .MT_4TO6_MAIN_PACKET (.v4 [10, 0, 0, 1])
        (.v4 [8, 8, 8, 8]) = .error b) ∧
    (check_if_ip_address_is_usable (.v4 [10, 0, 0, 1]) = .ok () →
     check_if_ip_address_is_usable (.v4 [8, 8, 8, 8]) = .ok () →
     perform_address_translation false .MT_4TO6_MAIN_PACKET (.v4 [10, 0, 0, 1])
        (.v4 [8, 8, 8, 8]) = .error true) :=
  c6_private_address_always_fails _ _ _ (Or.inl rfl) (Or.inl (by decide))

/-! ### C7 -/

/-- C7: every translation failure of an ICMP_ERROR_PACKET request carries
icmp_bit = false (the branches for those message types call only the prefix and
translator-IP helpers, which fail with icmp_bit = false), and every
ErroneousResponseMessage that passes construction validation satisfies the
invariant that its icmp bit is true only for a MAIN_PACKET message type. -/
theorem c7_icmp_error_packet_failures_are_icmp_false :
    (∀ (ap : Bool) (mt : MessageType) (src dst : IpAddress) (b : Bool),
      (mt = .MT_4TO6_ICMP_ERROR_PACKET ∨ mt = .MT_6TO4_ICMP_ERROR_PACKET) →
      perform_address_translation ap mt src dst = .error b → b = false) ∧
    (∀ (i : Bool) (mt : MessageType) (mid : Nat) (m : ErroneousResponseMessage),
      ErroneousResponseMessage.mk_validated i mt mid = .ok m →
      m.icmp_bit = true →
      m.message_type = .MT_4TO6_MAIN_PACKET ∨ m.message_type = .MT_6TO4_MAIN_PACKET) := by
  constructor
  · intro ap mt src dst b hmt h
    rcases hmt with rfl | rfl
    · unfold perform_address_translation at h
      cases hs : perform_translator_ip_4to6_translation src with
      | error bb =>
        rw [hs] at h; injection h with h
        rw [← h]; exact translator_ip_4to6_error_false src bb hs
      | ok s => rw [hs] at h; exact Except.noConfusion h
    · unfold perform_address_translation at h
      cases hs : perform_prefix_6to4_translation src with
      | error bb =>
        rw [hs] at h; injection h with h
        rw [← h]; exact prefix_6to4_error_false src bb hs
      | ok s =>
        rw [hs] at h
        cases hd : perform_translator_ip_6to4_translation dst with
        | error bb =>
          rw [hd] at h; injection h with h
          rw [← h]; exact translator_ip_6to4_error_false dst bb hd
        | ok d => rw [hd] at h; exact Except.noConfusion h
  · intro i mt mid m h hi
    unfold ErroneousResponseMessage.mk_validated at h
    split at h
    · exact Except.noConfusion h
    · rename_i hv
      split at h
      · exact Except.noConfusion h
      · injection h with h
        rw [← h] at hi ⊢
        simp only [ErroneousResponseMessage.icmp_bit] at hi
        unfold _ValidationHelpers.validate_icmp_bit_for_message_type at hv
        split at hv
        · exact Except.noConfusion hv
        · rename_i hcond
          simp only [ErroneousResponseMessage.message_type]
          by_cases h4 : mt = .MT_4TO6_MAIN_PACKET
          · exact Or.inl h4
          · by_cases h6 : mt = .MT_6TO4_MAIN_PACKET
            · exact Or.inr h6
            · exact absurd ⟨hi, h4, h6⟩ hcond

/-- Witness for C7: both conjuncts applied at concrete inputs. -/
theorem c7_icmp_error_packet_failures_are_icmp_false_witness :
    (false = false) ∧
    ((⟨true, .MT_4TO6_MAIN_PACKET, 7⟩ : ErroneousResponseMessage).message_type =
        .MT_4TO6_MAIN_PACKET ∨
     (⟨true, .MT_4TO6_MAIN_PACKET, 7⟩ : ErroneousResponseMessage).message_type =
        .MT_6TO4_MAIN_PACKET) :=
  ⟨c7_icmp_error_packet_failures_are_icmp_false.1 true .MT_4TO6_ICMP_ERROR_PACKET
      (.v4 [1, 2, 3, 4]) (.v4 [5, 6, 7, 8]) false (Or.inl rfl) (by decide),
   c7_icmp_error_packet_failures_are_icmp_false.2 true .MT_4TO6_MAIN_PACKET 7
      ⟨true, .MT_4TO6_MAIN_PACKET, 7⟩ (by decide) rfl⟩

/-! ### C2 -/

lemma conv16_none (bs : List Nat) :
    _WireformatHelpers._convert_16_bytes_to_optional_ip_address_object bs none = .ok none :=
  rfl

lemma get_expected_none (mt : MessageType) :
    _MiscHelpers.get_expected_ip_version_for_message_type mt none none = none := by
  cases mt <;> rfl

lemma cons8_of_length_40 (bs : List Nat) (h : bs.length = 40) :
    ∃ b0 b1 b2 b3 b4 b5 b6 b7 rest, bs = b0 :: b1 :: b2 :: b3 :: b4 :: b5 :: b6 :: b7 :: rest ∧
      rest.length = 32 := by
  rcases bs with _ | ⟨b0, bs⟩; · simp at h
  rcases bs with _ | ⟨b1, bs⟩; · simp at h
  rcases bs with _ | ⟨b2, bs⟩; · simp at h
  rcases bs with _ | ⟨b3, bs⟩; · simp at h
  rcases bs with _ | ⟨b4, bs⟩; · simp at h
  rcases bs with _ | ⟨b5, bs⟩; · simp at h
  rcases bs with _ | ⟨b6, bs⟩; · simp at h
  rcases bs with _ | ⟨b7, bs⟩; · simp at h
  exact ⟨b0, b1, b2, b3, b4, b5, b6, b7, bs, rfl, by simpa using h⟩

lemma erroneous_from_wireformat_ignores_tail (b0 b1 b2 b3 b4 b5 b6 b7 : Nat)
    (rest restB : List Nat) (h : rest.length = 32) (hB : restB.length = 32) :
    ErroneousResponseMessage.from_wireformat
        (b0 :: b1 :: b2 :: b3 :: b4 :: b5 :: b6 :: b7 :: rest) =
      ErroneousResponseMessage.from_wireformat
        (b0 :: b1 :: b2 :: b3 :: b4 :: b5 :: b6 :: b7 :: restB) := by
  unfold ErroneousResponseMessage.from_wireformat _WireformatHelpers.from_wireformat
  simp [_ValidationHelpers.validate_wireformat_size, WIREFORMAT_MESSAGE_SIZE, h, hB,
    get_expected_none, conv16_none]

/-- The 40-byte frame used for the C2 counterexample: a valid header with the
response and error bits set and message type 1, whose source address field has
a nonzero first byte. -/
def c2Frame : List Nat := [0x54, 1, 0xC1, 0, 0, 0, 0, 0, 1] ++ List.replicate 31 0

/-- C2 counterexample: this 40-byte frame has the response and error bits set
and nonzero address bytes at offsets 8..39, yet
`ErroneousResponseMessage.from_wireformat` succeeds on it instead of raising an
error, refuting the claim that the all-zero requirement on absent address
fields is enforced on decode. -/
theorem c2_absent_address_not_validated_counterexample :
    c2Frame.length = 40 ∧
    c2Frame.getD 2 0 &&& BITMASK_RESPONSE_BIT ≠ 0 ∧
    c2Frame.getD 2 0 &&& BITMASK_ERROR_BIT ≠ 0 ∧
    c2Frame.drop 8 ≠ List.replicate 32 0 ∧
    ErroneousResponseMessage.from_wireformat c2Frame =
      .ok ⟨false, .MT_4TO6_MAIN_PACKET, 0⟩ := by
  refine ⟨by decide, by decide, by decide, by decide, by decide⟩

/-- C2 (amended): when an IPv4 address is expected, decoding a 16-byte address
field whose bytes 4..15 are not all zero fails with the address-padding error
(the source asserts the field is exactly 16 bytes, stated here as the
hypothesis `hx`); but for an erroneous response (absent addresses) the decoder
performs no check at all on the address fields: the decode result depends only
on the first 8 bytes of the frame. -/
theorem c2_address_field_validation (bs16 bs bsB : List Nat)
    (hx : bs16.length = 16) (hpad : bs16.drop 4 ≠ List.replicate 12 0)
    (hlen : bs.length = 40) (hlenB : bsB.length = 40) (hhead : bs.take 8 = bsB.take 8) :
    _WireformatHelpers._convert_16_bytes_to_optional_ip_address_object bs16 (some .V4) =
      .error .addressPadding ∧
    ErroneousResponseMessage.from_wireformat bs = ErroneousResponseMessage.from_wireformat bsB := by
  constructor
  · unfold _WireformatHelpers._convert_16_bytes_to_optional_ip_address_object
    rw [if_pos hpad]
  · obtain ⟨b0, b1, b2, b3, b4, b5, b6, b7, rest, rfl, hrest⟩ := cons8_of_length_40 bs hlen
    obtain ⟨c0, c1, c2, c3, c4, c5, c6, c7, restB, rfl, hrestB⟩ := cons8_of_length_40 bsB hlenB
    simp only [List.take_succ_cons, List.take_zero, List.cons.injEq, and_true] at hhead
    obtain ⟨rfl, rfl, rfl, rfl, rfl, rfl, rfl, rfl⟩ := hhead
    exact erroneous_from_wireformat_ignores_tail b0 b1 b2 b3 b4 b5 b6 b7 rest restB hrest hrestB

/-- Witness for C2: the amended theorem applied to a concrete 16-byte field
with nonzero padding and two concrete frames that agree on their first 8
bytes. -/
theorem c2_address_field_validation_witness :
    _WireformatHelpers._convert_16_bytes_to_optional_ip_address_object
        [0, 0, 0, 0, 5, 0, 0, 0, 0, 0, 0, 0, 0, 0, 0, 0] (some .V4) =
      .error .addressPadding ∧
    ErroneousResponseMessage.from_wireformat
        ([0, 0, 0, 0, 5, 0, 0, 0, 0, 0, 0, 0, 0, 0, 0, 0, 0, 0, 0, 0, 0, 0, 0, 0,
          0, 0, 0, 0, 0, 0, 0, 0, 0, 0, 0, 0, 0, 0, 0, 0]) =
      ErroneousResponseMessage.from_wireformat
        ([0, 0, 0, 0, 5, 0, 0, 0] ++ List.replicate 32 9) :=
  c2_address_field_validation _ _ _ (by decide) (by decide) (by decide) (by decide)
    (by decide)

/-! ### C3 -/

lemma except_bind_match {α β : Type} (x : Except Bool α) (f : α → Except Bool β) :
    (x >>= f) = match x with | .error e => .error e | .ok a => f a := by
  cases x <;> rfl

lemma successful_mk_validated_ok_eq {mt : MessageType}
    {cl mid : Nat} {s d : IpAddress} {m : SuccessfulResponseMessage}
    (h : SuccessfulResponseMessage.mk_validated mt cl mid s d = .ok m) :
    m = ⟨mt, cl, mid, s, d⟩ := by
  unfold SuccessfulResponseMessage.mk_validated at h
  split at h
  · exact Except.noConfusion h
  · split at h
    · exact Except.noConfusion h
    · split at h
      · exact Except.noConfusion h
      · injection h with h; exact h.symm

/-- C3: the translation policy implements the per-message-type mapping table of
the spec exactly (the code equals a transcription of the table for every
configuration, message type and address pair); every successful handler
response carries the configured cache lifetime; and the concrete S1 scenario
holds: a 4TO6 main-packet request from 8.8.8.8 to 192.168.64.2 yields a
successful response with source 64:ff9b::808:808, destination fd64::2 and
cache lifetime 5. -/
theorem c3_per_message_type_mapping :
    (∀ (ap : Bool) (mt : MessageType) (src dst : IpAddress),
      perform_address_translation ap mt src dst =
        spec_per_message_type_mapping ap mt src dst) ∧
    (∀ (ap : Bool) (req : RequestMessage) (m : SuccessfulResponseMessage),
      handle_client_request_response ap req = .ok (.successfulResponse m) →
      m.cache_lifetime = CACHE_LIFETIME) ∧
    (handle_client_request_response true
        ⟨.MT_4TO6_MAIN_PACKET, 0xDEADBEEF, .v4 [8, 8, 8, 8], .v4 [192, 168, 64, 2]⟩ =
      .ok (.successfulResponse ⟨.MT_4TO6_MAIN_PACKET, 5, 0xDEADBEEF,
        .v6 [0, 0x64, 0xff, 0x9b, 0, 0, 0, 0, 0, 0, 0, 0, 8, 8, 8, 8],
        .v6 [0xfd, 0x64, 0, 0, 0, 0, 0, 0, 0, 0, 0, 0, 0, 0, 0, 2]⟩)) := by
  refine ⟨?_, ?_, by decide⟩
  · intro ap mt src dst
    cases mt
    case MT_4TO6_MAIN_PACKET =>
      simp only [perform_address_translation, spec_per_message_type_mapping,
        except_bind_match]
      cases hs : check_if_ip_address_is_usable src
      · rfl
      · cases hd : check_if_ip_address_is_usable dst
        · rfl
        · cases h1 : check_if_ip_address_is_not_private_if_needed ap src
          · rfl
          · cases h2 : check_if_ip_address_is_not_private_if_needed ap dst
            · rfl
            · cases ht : perform_translator_ip_4to6_translation dst <;> rfl
    case MT_4TO6_ICMP_ERROR_PACKET =>
      simp only [perform_address_translation, spec_per_message_type_mapping,
        except_bind_match]
      cases ht : perform_translator_ip_4to6_translation src <;> rfl
    case MT_6TO4_MAIN_PACKET =>
      simp only [perform_address_translation, spec_per_message_type_mapping,
        except_bind_match]
      cases hs : check_if_ip_address_is_usable src
      · rfl
      · cases hd : check_if_ip_address_is_usable dst
        · rfl
        · cases h1 : check_if_ip_address_is_not_private_if_needed ap src
          · rfl
          · cases h2 : check_if_ip_address_is_not_private_if_needed ap dst
            · rfl
            · cases ht : perform_translator_ip_6to4_translation src
              · rfl
              · cases hd2 : perform_prefix_6to4_translation dst <;> rfl
    case MT_6TO4_ICMP_ERROR_PACKET =>
      simp only [perform_address_translation, spec_per_message_type_mapping,
        except_bind_match]
      cases hs : perform_prefix_6to4_translation src
      · rfl
      · cases hd : perform_translator_ip_6to4_translation dst <;> rfl
  · intro ap req m h
    unfold handle_client_request_response at h
    split at h
    · split at h
      · exact Except.noConfusion h
      · injection h with h; exact Message.noConfusion h
    · split at h
      · exact Except.noConfusion h
      · rename_i s d hgen
        injection h with h
        have hm : Message.successfulResponse _ = Message.successfulResponse m := h
        injection hm with hm
        have := successful_mk_validated_ok_eq hgen
        rw [← hm, this]

/-- Witness for C3: the cache-lifetime conjunct applied at the concrete S1
request. -/
theorem c3_per_message_type_mapping_witness :
    (⟨.MT_4TO6_MAIN_PACKET, 5, 0xDEADBEEF,
        .v6 [0, 0x64, 0xff, 0x9b, 0, 0, 0, 0, 0, 0, 0, 0, 8, 8, 8, 8],
        .v6 [0xfd, 0x64, 0, 0, 0, 0, 0, 0, 0, 0, 0, 0, 0, 0, 0, 2]⟩ :
      SuccessfulResponseMessage).cache_lifetime = CACHE_LIFETIME :=
  c3_per_message_type_mapping.2.1 true
    ⟨.MT_4TO6_MAIN_PACKET, 0xDEADBEEF, .v4 [8, 8, 8, 8], .v4 [192, 168, 64, 2]⟩ _
    (by decide)

/-! ### C1 -/

lemma tb_roundtrip (r e i : Bool) (mt : MessageType) :
    _WireformatHelpers._convert_message_type_byte_to_bits_and_message_type
      (_WireformatHelpers._convert_bits_and_message_type_to_message_type_byte r e i mt) =
    .ok (r, e, i, mt) := by
  cases r <;> cases e <;> cases i <;> cases mt <;> decide

lemma tb_bit_response (r e i : Bool) (mt : MessageType) :
    (_WireformatHelpers._convert_bits_and_message_type_to_message_type_byte r e i mt &&&
      BITMASK_RESPONSE_BIT != 0) = r := by
  cases r <;> cases e <;> cases i <;> cases mt <;> decide

lemma tb_bit_error (r e i : Bool) (mt : MessageType) :
    (_WireformatHelpers._convert_bits_and_message_type_to_message_type_byte r e i mt &&&
      BITMASK_ERROR_BIT != 0) = e := by
  cases r <;> cases e <;> cases i <;> cases mt <;> decide

lemma to_wireformat_shape (r e i : Bool) (mt : MessageType) (cl mid : Nat)
    (src dst : Option IpAddress) :
    _WireformatHelpers.to_wireformat r e i mt cl mid src dst =
      MAGIC_BYTE :: PROTOCOL_VERSION ::
      _WireformatHelpers._convert_bits_and_message_type_to_message_type_byte r e i mt ::
      cl :: (mid / 16777216 % 256) :: (mid / 65536 % 256) :: (mid / 256 % 256) ::
      (mid % 256) ::
      (_WireformatHelpers._convert_optional_ip_address_object_to_16_bytes src ++
       _WireformatHelpers._convert_optional_ip_address_object_to_16_bytes dst) := by
  unfold _WireformatHelpers.to_wireformat
  simp

lemma to16_some_length (a : IpAddress) (h : 4 ≤ a.packed.length) :
    (_WireformatHelpers._convert_optional_ip_address_object_to_16_bytes (some a)).length =
      16 := by
  simp only [_WireformatHelpers._convert_optional_ip_address_object_to_16_bytes,
    List.length_take, List.length_append, List.length_replicate]
  omega

lemma to16_none_length :
    (_WireformatHelpers._convert_optional_ip_address_object_to_16_bytes none).length = 16 := by
  simp [_WireformatHelpers._convert_optional_ip_address_object_to_16_bytes]

lemma conv16_to16_v4 (b : List Nat) (h : b.length = 4) :
    _WireformatHelpers._convert_16_bytes_to_optional_ip_address_object
      (_WireformatHelpers._convert_optional_ip_address_object_to_16_bytes (some (.v4 b)))
      (some .V4) = .ok (some (.v4 b)) := by
  have h16 : (b ++ List.replicate 12 0).length = 16 := by simp [h]
  unfold _WireformatHelpers._convert_optional_ip_address_object_to_16_bytes
    _WireformatHelpers._convert_16_bytes_to_optional_ip_address_object
  simp only [IpAddress.packed, List.take_of_length_le (le_of_eq h16)]
  rw [if_neg (by simp [List.drop_left' h])]
  rw [List.take_left' h]

lemma conv16_to16_v6 (b : List Nat) (h : b.length = 16) :
    _WireformatHelpers._convert_16_bytes_to_optional_ip_address_object
      (_WireformatHelpers._convert_optional_ip_address_object_to_16_bytes (some (.v6 b)))
      (some .V6) = .ok (some (.v6 b)) := by
  unfold _WireformatHelpers._convert_optional_ip_address_object_to_16_bytes
    _WireformatHelpers._convert_16_bytes_to_optional_ip_address_object
  simp only [IpAddress.packed, List.take_left' h]

/-- Parsing an encoded frame recovers all the encoded fields, provided the
message identifier is in range and the two address slots convert back under the
expected version. -/
lemma from_of_to (r e i : Bool) (mt : MessageType) (cl mid : Nat)
    (src dst : Option IpAddress) (e4 e6 ipv : Option IpVersion)
    (hip : _MiscHelpers.get_expected_ip_version_for_message_type mt e4 e6 = ipv)
    (hmid : mid ≤ 4294967295)
    (hlenS : (_WireformatHelpers._convert_optional_ip_address_object_to_16_bytes src).length = 16)
    (hlenD : (_WireformatHelpers._convert_optional_ip_address_object_to_16_bytes dst).length = 16)
    (hconvS : _WireformatHelpers._convert_16_bytes_to_optional_ip_address_object
      (_WireformatHelpers._convert_optional_ip_address_object_to_16_bytes src) ipv = .ok src)
    (hconvD : _WireformatHelpers._convert_16_bytes_to_optional_ip_address_object
      (_WireformatHelpers._convert_optional_ip_address_object_to_16_bytes dst) ipv = .ok dst) :
    _WireformatHelpers.from_wireformat
      (_WireformatHelpers.to_wireformat r e i mt cl mid src dst) e4 e6 =
    .ok ⟨r, e, i, mt, cl, mid, src, dst⟩ := by
  rw [to_wireformat_shape]
  unfold _WireformatHelpers.from_wireformat
  simp only [_ValidationHelpers.validate_wireformat_size, WIREFORMAT_MESSAGE_SIZE,
    List.length_cons, List.length_append, hlenS, hlenD]
  norm_num
  simp only [List.getD_cons_zero, List.getD_cons_succ, tb_roundtrip]
  simp only [List.drop_succ_cons, List.drop_zero, hip]
  rw [List.take_left' hlenS, List.drop_left' hlenS,
    List.take_of_length_le (le_of_eq hlenD)]
  rw [hconvS, hconvD]
  simp only [Except.ok.injEq, _WireformatHelpers.ParsedWireformat.mk.injEq,
    true_and, and_true]
  omega

lemma detect_of_encode (r e i : Bool) (mt : MessageType) (cl mid : Nat)
    (src dst : Option IpAddress)
    (hlenS : (_WireformatHelpers._convert_optional_ip_address_object_to_16_bytes src).length = 16)
    (hlenD : (_WireformatHelpers._convert_optional_ip_address_object_to_16_bytes dst).length = 16) :
    WireformatParsingHelpers.detect_message_class_from_wireformat
      (_WireformatHelpers.to_wireformat r e i mt cl mid src dst) =
    .ok (if r then (if e then .erroneousResponse else .successfulResponse) else .request) := by
  rw [to_wireformat_shape]
  unfold WireformatParsingHelpers.detect_message_class_from_wireformat
  simp only [_ValidationHelpers.validate_wireformat_size, WIREFORMAT_MESSAGE_SIZE,
    List.length_cons, List.length_append, hlenS, hlenD]
  norm_num
  cases r <;> cases e <;> cases i <;> cases mt <;> decide

lemma validate_versions_ok {mt : MessageType} {s d : IpAddress} {v4 v6 : IpVersion}
    (h : _ValidationHelpers.validate_ip_address_versions_for_message_type mt s d v4 v6 =
      .ok ()) :
    ∃ v, _MiscHelpers.get_expected_ip_version_for_message_type mt (some v4) (some v6) =
        some v ∧ s.isVersion v = true ∧ d.isVersion v = true := by
  unfold _ValidationHelpers.validate_ip_address_versions_for_message_type at h
  split at h
  · exact Except.noConfusion h
  · rename_i v hv
    split at h
    · exact Except.noConfusion h
    · rename_i hcond
      simp at hcond
      exact ⟨v, hv, hcond.1, hcond.2⟩

lemma isVersion_v4_shape (a : IpAddress) (h : a.isVersion .V4 = true) :
    ∃ b, a = .v4 b := by
  cases a
  · exact ⟨_, rfl⟩
  · simp [IpAddress.isVersion] at h

lemma isVersion_v6_shape (a : IpAddress) (h : a.isVersion .V6 = true) :
    ∃ b, a = .v6 b := by
  cases a
  · simp [IpAddress.isVersion] at h
  · exact ⟨_, rfl⟩

lemma request_mk_validated_ok_inv {mt : MessageType} {mid : Nat}
    {s d : IpAddress} {m : RequestMessage}
    (h : RequestMessage.mk_validated mt mid s d = .ok m) :
    mid ≤ 4294967295 ∧
    _ValidationHelpers.validate_ip_address_versions_for_message_type mt s d .V4 .V6 =
      .ok () := by
  unfold RequestMessage.mk_validated at h
  split at h
  · exact Except.noConfusion h
  · rename_i hv1
    split at h
    · exact Except.noConfusion h
    · rename_i hv2
      exact ⟨validate_message_identifier_ok hv1, hv2⟩

lemma successful_mk_validated_ok_inv {mt : MessageType} {cl mid : Nat}
    {s d : IpAddress} {m : SuccessfulResponseMessage}
    (h : SuccessfulResponseMessage.mk_validated mt cl mid s d = .ok m) :
    mid ≤ 4294967295 ∧
    _ValidationHelpers.validate_ip_address_versions_for_message_type mt s d .V6 .V4 =
      .ok () := by
  unfold SuccessfulResponseMessage.mk_validated at h
  split at h
  · exact Except.noConfusion h
  · split at h
    · exact Except.noConfusion h
    · rename_i hv1
      split at h
      · exact Except.noConfusion h
      · rename_i hv2
        exact ⟨validate_message_identifier_ok hv1, hv2⟩

lemma erroneous_mk_validated_ok_inv {i : Bool} {mt : MessageType}
    {mid : Nat} {m : ErroneousResponseMessage}
    (h : ErroneousResponseMessage.mk_validated i mt mid = .ok m) :
    mid ≤ 4294967295 := by
  unfold ErroneousResponseMessage.mk_validated at h
  split at h
  · exact Except.noConfusion h
  · split at h
    · exact Except.noConfusion h
    · rename_i hv1
      exact validate_message_identifier_ok hv1

/-- C1: for every well-formed message of any of the three variants, decoding
its encoding with
`WireformatParsingHelpers.instantiate_appropriate_message_class_from_wireformat`
returns the same message (same variant, same fields). -/
theorem c1_decode_encode_roundtrip (m : Message) (h : m.WF) :
    WireformatParsingHelpers.instantiate_appropriate_message_class_from_wireformat
      m.to_wireformat = .ok m := by
  cases m with
  | request q =>
    obtain ⟨mt, mid, s, d⟩ := q
    obtain ⟨hsWF, hdWF, hmk⟩ := h
    obtain ⟨hmid, hver⟩ := request_mk_validated_ok_inv hmk
    obtain ⟨v, hv, hsv, hdv⟩ := validate_versions_ok hver
    have henc : Message.to_wireformat (.request ⟨mt, mid, s, d⟩) =
        _WireformatHelpers.to_wireformat false false false mt 0 mid (some s) (some d) := rfl
    cases v with
    | V4 =>
      obtain ⟨sb, rfl⟩ := isVersion_v4_shape s hsv
      obtain ⟨db, rfl⟩ := isVersion_v4_shape d hdv
      obtain ⟨hslen, -⟩ := hsWF
      obtain ⟨hdlen, -⟩ := hdWF
      have hlenS := to16_some_length (.v4 sb) (by simp [IpAddress.packed, hslen])
      have hlenD := to16_some_length (.v4 db) (by simp [IpAddress.packed, hdlen])
      have hfrom : RequestMessage.from_wireformat
          (_WireformatHelpers.to_wireformat false false false mt 0 mid
            (some (.v4 sb)) (some (.v4 db))) = .ok ⟨mt, mid, .v4 sb, .v4 db⟩ := by
        unfold RequestMessage.from_wireformat
        rw [from_of_to false false false mt 0 mid (some (.v4 sb)) (some (.v4 db))
          (some .V4) (some .V6) (some .V4) hv hmid hlenS hlenD
          (conv16_to16_v4 sb hslen) (conv16_to16_v4 db hdlen)]
        exact hmk
      rw [henc]
      unfold WireformatParsingHelpers.instantiate_appropriate_message_class_from_wireformat
      rw [detect_of_encode false false false mt 0 mid _ _ hlenS hlenD, hfrom]
      rfl
    | V6 =>
      obtain ⟨sb, rfl⟩ := isVersion_v6_shape s hsv
      obtain ⟨db, rfl⟩ := isVersion_v6_shape d hdv
      obtain ⟨hslen, -⟩ := hsWF
      obtain ⟨hdlen, -⟩ := hdWF
      have hlenS := to16_some_length (.v6 sb) (by simp [IpAddress.packed, hslen])
      have hlenD := to16_some_length (.v6 db) (by simp [IpAddress.packed, hdlen])
      have hfrom : RequestMessage.from_wireformat
          (_WireformatHelpers.to_wireformat false false false mt 0 mid
            (some (.v6 sb)) (some (.v6 db))) = .ok ⟨mt, mid, .v6 sb, .v6 db⟩ := by
        unfold RequestMessage.from_wireformat
        rw [from_of_to false false false mt 0 mid (some (.v6 sb)) (some (.v6 db))
          (some .V4) (some .V6) (some .V6) hv hmid hlenS hlenD
          (conv16_to16_v6 sb hslen) (conv16_to16_v6 db hdlen)]
        exact hmk
      rw [henc]
      unfold WireformatParsingHelpers.instantiate_appropriate_message_class_from_wireformat
      rw [detect_of_encode false false false mt 0 mid _ _ hlenS hlenD, hfrom]
      rfl
  | successfulResponse q =>
    obtain ⟨mt, cl, mid, s, d⟩ := q
    obtain ⟨hsWF, hdWF, hmk⟩ := h
    obtain ⟨hmid, hver⟩ := successful_mk_validated_ok_inv hmk
    obtain ⟨v, hv, hsv, hdv⟩ := validate_versions_ok hver
    have henc : Message.to_wireformat (.successfulResponse ⟨mt, cl, mid, s, d⟩) =
        _WireformatHelpers.to_wireformat true false false mt cl mid (some s) (some d) := rfl
    cases v with
    | V4 =>
      obtain ⟨sb, rfl⟩ := isVersion_v4_shape s hsv
      obtain ⟨db, rfl⟩ := isVersion_v4_shape d hdv
      obtain ⟨hslen, -⟩ := hsWF
      obtain ⟨hdlen, -⟩ := hdWF
      have hlenS := to16_some_length (.v4 sb) (by simp [IpAddress.packed, hslen])
      have hlenD := to16_some_length (.v4 db) (by simp [IpAddress.packed, hdlen])
      have hfrom : SuccessfulResponseMessage.from_wireformat
          (_WireformatHelpers.to_wireformat true false false mt cl mid
            (some (.v4 sb)) (some (.v4 db))) = .ok ⟨mt, cl, mid, .v4 sb, .v4 db⟩ := by
        unfold SuccessfulResponseMessage.from_wireformat
        rw [from_of_to true false false mt cl mid (some (.v4 sb)) (some (.v4 db))
          (some .V6) (some .V4) (some .V4) hv hmid hlenS hlenD
          (conv16_to16_v4 sb hslen) (conv16_to16_v4 db hdlen)]
        exact hmk
      rw [henc]
      unfold WireformatParsingHelpers.instantiate_appropriate_message_class_from_wireformat
      rw [detect_of_encode true false false mt cl mid _ _ hlenS hlenD, hfrom]
      rfl
    | V6 =>
      obtain ⟨sb, rfl⟩ := isVersion_v6_shape s hsv
      obtain ⟨db, rfl⟩ := isVersion_v6_shape d hdv
      obtain ⟨hslen, -⟩ := hsWF
      obtain ⟨hdlen, -⟩ := hdWF
      have hlenS := to16_some_length (.v6 sb) (by simp [IpAddress.packed, hslen])
      have hlenD := to16_some_length (.v6 db) (by simp [IpAddress.packed, hdlen])
      have hfrom : SuccessfulResponseMessage.from_wireformat
          (_WireformatHelpers.to_wireformat true false false mt cl mid
            (some (.v6 sb)) (some (.v6 db))) = .ok ⟨mt, cl, mid, .v6 sb, .v6 db⟩ := by
        unfold SuccessfulResponseMessage.from_wireformat
        rw [from_of_to true false false mt cl mid (some (.v6 sb)) (some (.v6 db))
          (some .V6) (some .V4) (some .V6) hv hmid hlenS hlenD
          (conv16_to16_v6 sb hslen) (conv16_to16_v6 db hdlen)]
        exact hmk
      rw [henc]
      unfold WireformatParsingHelpers.instantiate_appropriate_message_class_from_wireformat
      rw [detect_of_encode true false false mt cl mid _ _ hlenS hlenD, hfrom]
      rfl
  | erroneousResponse q =>
    obtain ⟨i, mt, mid⟩ := q
    have hmk : ErroneousResponseMessage.mk_validated i mt mid = .ok ⟨i, mt, mid⟩ := h
    have hmid := erroneous_mk_validated_ok_inv hmk
    have henc : Message.to_wireformat (.erroneousResponse ⟨i, mt, mid⟩) =
        _WireformatHelpers.to_wireformat true true i mt 0 mid none none := rfl
    have hfrom : ErroneousResponseMessage.from_wireformat
        (_WireformatHelpers.to_wireformat true true i mt 0 mid none none) =
        .ok ⟨i, mt, mid⟩ := by
      unfold ErroneousResponseMessage.from_wireformat
      rw [from_of_to true true i mt 0 mid none none none none none
        (get_expected_none mt) hmid to16_none_length to16_none_length rfl rfl]
      exact hmk
    rw [henc]
    unfold WireformatParsingHelpers.instantiate_appropriate_message_class_from_wireformat
    rw [detect_of_encode true true i mt 0 mid _ _ to16_none_length to16_none_length, hfrom]
    rfl

/-- Witness for C1 at a concrete well-formed erroneous response message. -/
theorem c1_decode_encode_roundtrip_witness :
    WireformatParsingHelpers.instantiate_appropriate_message_class_from_wireformat
      (Message.to_wireformat (.erroneousResponse ⟨true, .MT_6TO4_MAIN_PACKET, 123456⟩)) =
    .ok (.erroneousResponse ⟨true, .MT_6TO4_MAIN_PACKET, 123456⟩) :=
  c1_decode_encode_roundtrip _ (by decide)

/-! ### C9 -/

lemma parse_magic_error (bs : List Nat) (e4 e6 : Option IpVersion)
    (hlen : bs.length = 40) (hm : bs.getD 0 0 ≠ MAGIC_BYTE) :
    _WireformatHelpers.from_wireformat bs e4 e6 = .error .magic := by
  unfold _WireformatHelpers.from_wireformat _ValidationHelpers.validate_wireformat_size
  rw [if_neg (by simp [WIREFORMAT_MESSAGE_SIZE, hlen])]
  rw [if_pos hm]

lemma parse_version_error (bs : List Nat) (e4 e6 : Option IpVersion)
    (hlen : bs.length = 40) (hm : bs.getD 0 0 = MAGIC_BYTE)
    (hv : bs.getD 1 0 ≠ PROTOCOL_VERSION) :
    _WireformatHelpers.from_wireformat bs e4 e6 = .error .version := by
  unfold _WireformatHelpers.from_wireformat _ValidationHelpers.validate_wireformat_size
  rw [if_neg (by simp [WIREFORMAT_MESSAGE_SIZE, hlen])]
  rw [if_neg (not_not_intro hm), if_pos hv]

lemma parse_unknown_type_error (bs : List Nat) (e4 e6 : Option IpVersion)
    (hlen : bs.length = 40) (hm : bs.getD 0 0 = MAGIC_BYTE)
    (hv : bs.getD 1 0 = PROTOCOL_VERSION)
    (ht : MessageType.fromValue (bs.getD 2 0 &&& BITMASK_MESSAGE_TYPE_INT) = none) :
    _WireformatHelpers.from_wireformat bs e4 e6 = .error .unknownMessageType := by
  unfold _WireformatHelpers.from_wireformat _ValidationHelpers.validate_wireformat_size
    _WireformatHelpers._convert_message_type_byte_to_bits_and_message_type
  rw [if_neg (by simp [WIREFORMAT_MESSAGE_SIZE, hlen])]
  rw [if_neg (not_not_intro hm), if_neg (not_not_intro hv)]
  dsimp only
  rw [ht]

lemma conv16_error_shape {x : List Nat} {v : Option IpVersion} {e : WireErr}
    (h : _WireformatHelpers._convert_16_bytes_to_optional_ip_address_object x v = .error e) :
    e = .addressPadding := by
  unfold _WireformatHelpers._convert_16_bytes_to_optional_ip_address_object at h
  split at h
  · split at h
    · injection h with h; exact h.symm
    · exact Except.noConfusion h
  · exact Except.noConfusion h
  · exact Except.noConfusion h

lemma parse_ok_or_padding (bs : List Nat) (e4 e6 : Option IpVersion)
    (hlen : bs.length = 40) (hm : bs.getD 0 0 = MAGIC_BYTE)
    (hv : bs.getD 1 0 = PROTOCOL_VERSION) (mt : MessageType)
    (ht : MessageType.fromValue (bs.getD 2 0 &&& BITMASK_MESSAGE_TYPE_INT) = some mt) :
    _WireformatHelpers.from_wireformat bs e4 e6 = .error .addressPadding ∨
    ∃ pw, _WireformatHelpers.from_wireformat bs e4 e6 = .ok pw := by
  unfold _WireformatHelpers.from_wireformat _ValidationHelpers.validate_wireformat_size
    _WireformatHelpers._convert_message_type_byte_to_bits_and_message_type
  rw [if_neg (by simp [WIREFORMAT_MESSAGE_SIZE, hlen])]
  rw [if_neg (not_not_intro hm), if_neg (not_not_intro hv)]
  dsimp only
  rw [ht]
  dsimp only
  cases hs : _WireformatHelpers._convert_16_bytes_to_optional_ip_address_object
      ((bs.drop 8).take 16)
      (_MiscHelpers.get_expected_ip_version_for_message_type mt e4 e6) with
  | error e =>
    left
    rw [conv16_error_shape hs]
  | ok s =>
    cases hd : _WireformatHelpers._convert_16_bytes_to_optional_ip_address_object
        ((bs.drop 24).take 16)
        (_MiscHelpers.get_expected_ip_version_for_message_type mt e4 e6) with
    | error e =>
      left
      rw [conv16_error_shape hd]
    | ok d =>
      exact Or.inr ⟨_, rfl⟩

lemma validate_message_identifier_error {mid : Nat} {e : WireErr}
    (h : _ValidationHelpers.validate_message_identifier mid = .error e) :
    e = .messageIdentifierOutOfRange := by
  unfold _ValidationHelpers.validate_message_identifier at h
  split at h
  · injection h with h; exact h.symm
  · exact Except.noConfusion h

lemma validate_cache_lifetime_error {cl : Nat} {e : WireErr}
    (h : _ValidationHelpers.validate_cache_lifetime cl = .error e) :
    e = .cacheLifetimeOutOfRange := by
  unfold _ValidationHelpers.validate_cache_lifetime at h
  split at h
  · injection h with h; exact h.symm
  · exact Except.noConfusion h

lemma validate_versions_error {mt : MessageType} {s d : IpAddress} {v4 v6 : IpVersion}
    {e : WireErr}
    (h : _ValidationHelpers.validate_ip_address_versions_for_message_type mt s d v4 v6 =
      .error e) :
    e = .ipVersionMismatch ∨ e = .assertionFailed := by
  unfold _ValidationHelpers.validate_ip_address_versions_for_message_type at h
  split at h
  · injection h with h; exact Or.inr h.symm
  · split at h
    · injection h with h; exact Or.inl h.symm
    · exact Except.noConfusion h

lemma validate_icmp_error {mt : MessageType} {i : Bool} {e : WireErr}
    (h : _ValidationHelpers.validate_icmp_bit_for_message_type mt i = .error e) :
    e = .icmpBitNotAllowed := by
  unfold _ValidationHelpers.validate_icmp_bit_for_message_type at h
  split at h
  · injection h with h; exact h.symm
  · exact Except.noConfusion h

lemma mk_request_error_shape {mt : MessageType} {mid : Nat} {s d : IpAddress} {e : WireErr}
    (h : RequestMessage.mk_validated mt mid s d = .error e) :
    e = .messageIdentifierOutOfRange ∨ e = .ipVersionMismatch ∨ e = .assertionFailed := by
  unfold RequestMessage.mk_validated at h
  split at h
  · rename_i hv1
    injection h with h; subst h
    exact Or.inl (validate_message_identifier_error hv1)
  · split at h
    · rename_i hv2
      injection h with h; subst h
      exact Or.inr (validate_versions_error hv2)
    · exact Except.noConfusion h

lemma mk_successful_error_shape {mt : MessageType} {cl mid : Nat} {s d : IpAddress}
    {e : WireErr}
    (h : SuccessfulResponseMessage.mk_validated mt cl mid s d = .error e) :
    e = .cacheLifetimeOutOfRange ∨ e = .messageIdentifierOutOfRange ∨
    e = .ipVersionMismatch ∨ e = .assertionFailed := by
  unfold SuccessfulResponseMessage.mk_validated at h
  split at h
  · rename_i hv0
    injection h with h; subst h
    exact Or.inl (validate_cache_lifetime_error hv0)
  · split at h
    · rename_i hv1
      injection h with h; subst h
      exact Or.inr (Or.inl (validate_message_identifier_error hv1))
    · split at h
      · rename_i hv2
        injection h with h; subst h
        exact Or.inr (Or.inr (validate_versions_error hv2))
      · exact Except.noConfusion h

lemma mk_erroneous_error_shape {i : Bool} {mt : MessageType} {mid : Nat} {e : WireErr}
    (h : ErroneousResponseMessage.mk_validated i mt mid = .error e) :
    e = .icmpBitNotAllowed ∨ e = .messageIdentifierOutOfRange := by
  unfold ErroneousResponseMessage.mk_validated at h
  split at h
  · rename_i hv0
    injection h with h; subst h
    exact Or.inl (validate_icmp_error hv0)
  · split at h
    · rename_i hv1
      injection h with h; subst h
      exact Or.inr (validate_message_identifier_error hv1)
    · exact Except.noConfusion h

lemma request_from_error_shape {bs : List Nat} {e : WireErr}
    (hp : _WireformatHelpers.from_wireformat bs (some .V4) (some .V6) =
        .error .addressPadding ∨
      ∃ pw, _WireformatHelpers.from_wireformat bs (some .V4) (some .V6) = .ok pw)
    (h : RequestMessage.from_wireformat bs = .error e) :
    e = .addressPadding ∨ e = .requestBitsSet ∨ e = .assertionFailed ∨
    e = .messageIdentifierOutOfRange ∨ e = .ipVersionMismatch := by
  unfold RequestMessage.from_wireformat at h
  rcases hp with hp | ⟨pw, hp⟩
  · rw [hp] at h; injection h with h; exact Or.inl h.symm
  · rw [hp] at h
    rcases pw with ⟨r, er, i, mt, cl, mid, srcO, dstO⟩
    cases srcO <;> cases dstO <;> dsimp only at h
    · injection h with h; exact Or.inr (Or.inr (Or.inl h.symm))
    · injection h with h; exact Or.inr (Or.inr (Or.inl h.symm))
    · injection h with h; exact Or.inr (Or.inr (Or.inl h.symm))
    · split at h
      · injection h with h; exact Or.inr (Or.inl h.symm)
      · rcases mk_request_error_shape h with h | h | h
        · exact Or.inr (Or.inr (Or.inr (Or.inl h)))
        · exact Or.inr (Or.inr (Or.inr (Or.inr h)))
        · exact Or.inr (Or.inr (Or.inl h))

lemma successful_from_error_shape {bs : List Nat} {e : WireErr}
    (hp : _WireformatHelpers.from_wireformat bs (some .V6) (some .V4) =
        .error .addressPadding ∨
      ∃ pw, _WireformatHelpers.from_wireformat bs (some .V6) (some .V4) = .ok pw)
    (h : SuccessfulResponseMessage.from_wireformat bs = .error e) :
    e = .addressPadding ∨ e = .successfulResponseBitsInvalid ∨ e = .assertionFailed ∨
    e = .cacheLifetimeOutOfRange ∨ e = .messageIdentifierOutOfRange ∨
    e = .ipVersionMismatch := by
  unfold SuccessfulResponseMessage.from_wireformat at h
  rcases hp with hp | ⟨pw, hp⟩
  · rw [hp] at h; injection h with h; exact Or.inl h.symm
  · rw [hp] at h
    rcases pw with ⟨r, er, i, mt, cl, mid, srcO, dstO⟩
    cases srcO <;> cases dstO <;> dsimp only at h
    · injection h with h; exact Or.inr (Or.inr (Or.inl h.symm))
    · injection h with h; exact Or.inr (Or.inr (Or.inl h.symm))
    · injection h with h; exact Or.inr (Or.inr (Or.inl h.symm))
    · split at h
      · injection h with h; exact Or.inr (Or.inl h.symm)
      · rcases mk_successful_error_shape h with h | h | h | h
        · exact Or.inr (Or.inr (Or.inr (Or.inl h)))
        · exact Or.inr (Or.inr (Or.inr (Or.inr (Or.inl h))))
        · exact Or.inr (Or.inr (Or.inr (Or.inr (Or.inr h))))
        · exact Or.inr (Or.inr (Or.inl h))

lemma erroneous_from_error_shape {bs : List Nat} {e : WireErr}
    (hp : _WireformatHelpers.from_wireformat bs none none = .error .addressPadding ∨
      ∃ pw, _WireformatHelpers.from_wireformat bs none none = .ok pw)
    (h : ErroneousResponseMessage.from_wireformat bs = .error e) :
    e = .addressPadding ∨ e = .erroneousResponseBitsInvalid ∨ e = .assertionFailed ∨
    e = .icmpBitNotAllowed ∨ e = .messageIdentifierOutOfRange := by
  unfold ErroneousResponseMessage.from_wireformat at h
  rcases hp with hp | ⟨pw, hp⟩
  · rw [hp] at h; injection h with h; exact Or.inl h.symm
  · rw [hp] at h
    rcases pw with ⟨r, er, i, mt, cl, mid, srcO, dstO⟩
    cases srcO <;> cases dstO <;> dsimp only at h
    · split at h
      · injection h with h; exact Or.inr (Or.inl h.symm)
      · rcases mk_erroneous_error_shape h with h | h
        · exact Or.inr (Or.inr (Or.inr (Or.inl h)))
        · exact Or.inr (Or.inr (Or.inr (Or.inr h)))
    · injection h with h; exact Or.inr (Or.inr (Or.inl h.symm))
    · injection h with h; exact Or.inr (Or.inr (Or.inl h.symm))
    · injection h with h; exact Or.inr (Or.inr (Or.inl h.symm))

lemma detect_ok_of_length {bs : List Nat} (hlen : bs.length = 40) :
    ∃ c, WireformatParsingHelpers.detect_message_class_from_wireformat bs = .ok c := by
  unfold WireformatParsingHelpers.detect_message_class_from_wireformat
    _ValidationHelpers.validate_wireformat_size
  rw [if_neg (by simp [WIREFORMAT_MESSAGE_SIZE, hlen])]
  dsimp only
  by_cases h1 : (bs.getD 2 0 &&& BITMASK_RESPONSE_BIT != 0) = true
  · by_cases h2 : (bs.getD 2 0 &&& BITMASK_ERROR_BIT != 0) = true
    · exact ⟨.erroneousResponse, by rw [if_pos h1, if_pos h2]⟩
    · exact ⟨.successfulResponse, by rw [if_pos h1, if_neg h2]⟩
  · exact ⟨.request, by rw [if_neg h1]⟩

lemma fromValue_none_of (n : Nat) (h1 : n ≠ 1) (h2 : n ≠ 2) (h3 : n ≠ 3) (h4 : n ≠ 4) :
    MessageType.fromValue n = none := by
  rcases n with _ | _ | _ | _ | _ | n
  · rfl
  · exact absurd rfl h1
  · exact absurd rfl h2
  · exact absurd rfl h3
  · exact absurd rfl h4
  · rfl

/-- C9: decoding validates the frame header in order.  An input whose length is
not 40 fails with the frame-size error; a 40-byte frame with a wrong byte 0
fails with the magic error; with good magic but wrong byte 1, the version
error; with a good magic and version but a message-type code (bits 4..0 of
byte 2) outside 1..4, the unknown-message-type error; and a frame passing all
four checks is never rejected with any of those four errors. -/
theorem c9_header_validation_order :
    (∀ bs : List Nat, bs.length ≠ 40 →
      WireformatParsingHelpers.instantiate_appropriate_message_class_from_wireformat bs =
        .error .frameSize) ∧
    (∀ bs : List Nat, bs.length = 40 → bs.getD 0 0 ≠ 0x54 →
      WireformatParsingHelpers.instantiate_appropriate_message_class_from_wireformat bs =
        .error .magic) ∧
    (∀ bs : List Nat, bs.length = 40 → bs.getD 0 0 = 0x54 → bs.getD 1 0 ≠ 1 →
      WireformatParsingHelpers.instantiate_appropriate_message_class_from_wireformat bs =
        .error .version) ∧
    (∀ bs : List Nat, bs.length = 40 → bs.getD 0 0 = 0x54 → bs.getD 1 0 = 1 →
      (bs.getD 2 0 &&& 0x1f ≠ 1 ∧ bs.getD 2 0 &&& 0x1f ≠ 2 ∧
       bs.getD 2 0 &&& 0x1f ≠ 3 ∧ bs.getD 2 0 &&& 0x1f ≠ 4) →
      WireformatParsingHelpers.instantiate_appropriate_message_class_from_wireformat bs =
        .error .unknownMessageType) ∧
    (∀ bs : List Nat, bs.length = 40 → bs.getD 0 0 = 0x54 → bs.getD 1 0 = 1 →
      (bs.getD 2 0 &&& 0x1f = 1 ∨ bs.getD 2 0 &&& 0x1f = 2 ∨
       bs.getD 2 0 &&& 0x1f = 3 ∨ bs.getD 2 0 &&& 0x1f = 4) →
      WireformatParsingHelpers.instantiate_appropriate_message_class_from_wireformat bs ≠
        .error .frameSize ∧
      WireformatParsingHelpers.instantiate_appropriate_message_class_from_wireformat bs ≠
        .error .magic ∧
      WireformatParsingHelpers.instantiate_appropriate_message_class_from_wireformat bs ≠
        .error .version ∧
      WireformatParsingHelpers.instantiate_appropriate_message_class_from_wireformat bs ≠
        .error .unknownMessageType) := by
  refine ⟨?_, ?_, ?_, ?_, ?_⟩
  · intro bs h
    unfold WireformatParsingHelpers.instantiate_appropriate_message_class_from_wireformat
      WireformatParsingHelpers.detect_message_class_from_wireformat
      _ValidationHelpers.validate_wireformat_size
    rw [if_pos (show bs.length ≠ WIREFORMAT_MESSAGE_SIZE from h)]
  · intro bs hlen hm
    obtain ⟨c, hdet⟩ := detect_ok_of_length hlen
    unfold WireformatParsingHelpers.instantiate_appropriate_message_class_from_wireformat
    rw [hdet]
    cases c <;> dsimp only
    · rw [show RequestMessage.from_wireformat bs = .error .magic from by
        unfold RequestMessage.from_wireformat
        rw [parse_magic_error bs _ _ hlen hm]]
    · rw [show SuccessfulResponseMessage.from_wireformat bs = .error .magic from by
        unfold SuccessfulResponseMessage.from_wireformat
        rw [parse_magic_error bs _ _ hlen hm]]
    · rw [show ErroneousResponseMessage.from_wireformat bs = .error .magic from by
        unfold ErroneousResponseMessage.from_wireformat
        rw [parse_magic_error bs _ _ hlen hm]]
  · intro bs hlen hm hv
    obtain ⟨c, hdet⟩ := detect_ok_of_length hlen
    unfold WireformatParsingHelpers.instantiate_appropriate_message_class_from_wireformat
    rw [hdet]
    cases c <;> dsimp only
    · rw [show RequestMessage.from_wireformat bs = .error .version from by
        unfold RequestMessage.from_wireformat
        rw [parse_version_error bs _ _ hlen hm hv]]
    · rw [show SuccessfulResponseMessage.from_wireformat bs = .error .version from by
        unfold SuccessfulResponseMessage.from_wireformat
        rw [parse_version_error bs _ _ hlen hm hv]]
    · rw [show ErroneousResponseMessage.from_wireformat bs = .error .version from by
        unfold ErroneousResponseMessage.from_wireformat
        rw [parse_version_error bs _ _ hlen hm hv]]
  · intro bs hlen hm hv hc
    have ht : MessageType.fromValue (bs.getD 2 0 &&& BITMASK_MESSAGE_TYPE_INT) = none :=
      fromValue_none_of _ hc.1 hc.2.1 hc.2.2.1 hc.2.2.2
    obtain ⟨c, hdet⟩ := detect_ok_of_length hlen
    unfold WireformatParsingHelpers.instantiate_appropriate_message_class_from_wireformat
    rw [hdet]
    cases c <;> dsimp only
    · rw [show RequestMessage.from_wireformat bs = .error .unknownMessageType from by
        unfold RequestMessage.from_wireformat
        rw [parse_unknown_type_error bs _ _ hlen hm hv ht]]
    · rw [show SuccessfulResponseMessage.from_wireformat bs = .error .unknownMessageType from by
        unfold SuccessfulResponseMessage.from_wireformat
        rw [parse_unknown_type_error bs _ _ hlen hm hv ht]]
    · rw [show ErroneousResponseMessage.from_wireformat bs = .error .unknownMessageType from by
        unfold ErroneousResponseMessage.from_wireformat
        rw [parse_unknown_type_error bs _ _ hlen hm hv ht]]
  · intro bs hlen hm hv hcode
    obtain ⟨mt, ht⟩ : ∃ mt, MessageType.fromValue (bs.getD 2 0 &&& BITMASK_MESSAGE_TYPE_INT) =
        some mt := by
      rcases hcode with h | h | h | h
      · exact ⟨.MT_4TO6_MAIN_PACKET, by
          rw [show bs.getD 2 0 &&& BITMASK_MESSAGE_TYPE_INT = 1 from h]; rfl⟩
      · exact ⟨.MT_4TO6_ICMP_ERROR_PACKET, by
          rw [show bs.getD 2 0 &&& BITMASK_MESSAGE_TYPE_INT = 2 from h]; rfl⟩
      · exact ⟨.MT_6TO4_MAIN_PACKET, by
          rw [show bs.getD 2 0 &&& BITMASK_MESSAGE_TYPE_INT = 3 from h]; rfl⟩
      · exact ⟨.MT_6TO4_ICMP_ERROR_PACKET, by
          rw [show bs.getD 2 0 &&& BITMASK_MESSAGE_TYPE_INT = 4 from h]; rfl⟩
    obtain ⟨c, hdet⟩ := detect_ok_of_length hlen
    unfold WireformatParsingHelpers.instantiate_appropriate_message_class_from_wireformat
    rw [hdet]
    cases c <;> dsimp only
    · cases hX : RequestMessage.from_wireformat bs with
      | error e =>
        have hshape := request_from_error_shape
          (parse_ok_or_padding bs _ _ hlen hm hv mt ht) hX
        rcases hshape with rfl | rfl | rfl | rfl | rfl <;>
          exact ⟨by decide, by decide, by decide, by decide⟩
      | ok m =>
        exact ⟨fun hcon => Except.noConfusion hcon, fun hcon => Except.noConfusion hcon,
          fun hcon => Except.noConfusion hcon, fun hcon => Except.noConfusion hcon⟩
    · cases hX : SuccessfulResponseMessage.from_wireformat bs with
      | error e =>
        have hshape := successful_from_error_shape
          (parse_ok_or_padding bs _ _ hlen hm hv mt ht) hX
        rcases hshape with rfl | rfl | rfl | rfl | rfl | rfl <;>
          exact ⟨by decide, by decide, by decide, by decide⟩
      | ok m =>
        exact ⟨fun hcon => Except.noConfusion hcon, fun hcon => Except.noConfusion hcon,
          fun hcon => Except.noConfusion hcon, fun hcon => Except.noConfusion hcon⟩
    · cases hX : ErroneousResponseMessage.from_wireformat bs with
      | error e =>
        have hshape := erroneous_from_error_shape
          (parse_ok_or_padding bs _ _ hlen hm hv mt ht) hX
        rcases hshape with rfl | rfl | rfl | rfl | rfl <;>
          exact ⟨by decide, by decide, by decide, by decide⟩
      | ok m =>
        exact ⟨fun hcon => Except.noConfusion hcon, fun hcon => Except.noConfusion hcon,
          fun hcon => Except.noConfusion hcon, fun hcon => Except.noConfusion hcon⟩

/-- Witness for C9: all five conjuncts applied at concrete frames. -/
theorem c9_header_validation_order_witness :
    WireformatParsingHelpers.instantiate_appropriate_message_class_from_wireformat
      (List.replicate 39 0) = .error .frameSize ∧
    WireformatParsingHelpers.instantiate_appropriate_message_class_from_wireformat
      (0 :: List.replicate 39 0) = .error .magic ∧
    WireformatParsingHelpers.instantiate_appropriate_message_class_from_wireformat
      (0x54 :: 9 :: List.replicate 38 0) = .error .version ∧
    WireformatParsingHelpers.instantiate_appropriate_message_class_from_wireformat
      (0x54 :: 1 :: 5 :: List.replicate 37 0) = .error .unknownMessageType ∧
    WireformatParsingHelpers.instantiate_appropriate_message_class_from_wireformat
      (0x54 :: 1 :: 1 :: List.replicate 37 0) ≠ .error .magic :=
  ⟨c9_header_validation_order.1 _ (by decide),
   c9_header_validation_order.2.1 _ (by decide) (by decide),
   c9_header_validation_order.2.2.1 _ (by decide) (by decide) (by decide),
   c9_header_validation_order.2.2.2.1 _ (by decide) (by decide) (by decide)
     ⟨by decide, by decide, by decide, by decide⟩,
   (c9_header_validation_order.2.2.2.2 _ (by decide) (by decide) (by decide)
     (Or.inl (by decide))).2.1⟩

/-! ### C4 -/

lemma instantiate_ok_length {bs : List Nat} {m : Message}
    (h : WireformatParsingHelpers.instantiate_appropriate_message_class_from_wireformat bs =
      .ok m) : bs.length = 40 := by
  by_contra hne
  unfold WireformatParsingHelpers.instantiate_appropriate_message_class_from_wireformat
    WireformatParsingHelpers.detect_message_class_from_wireformat
    _ValidationHelpers.validate_wireformat_size at h
  rw [if_pos (show bs.length ≠ WIREFORMAT_MESSAGE_SIZE from hne)] at h
  exact Except.noConfusion h

lemma detect_val {bs : List Nat} (hlen : bs.length = 40) :
    WireformatParsingHelpers.detect_message_class_from_wireformat bs = .ok
      (if bs.getD 2 0 &&& BITMASK_RESPONSE_BIT != 0 then
        (if bs.getD 2 0 &&& BITMASK_ERROR_BIT != 0 then .erroneousResponse
         else .successfulResponse)
       else .request) := by
  unfold WireformatParsingHelpers.detect_message_class_from_wireformat
    _ValidationHelpers.validate_wireformat_size
  rw [if_neg (by simp [WIREFORMAT_MESSAGE_SIZE, hlen])]
  dsimp only
  cases h1 : (bs.getD 2 0 &&& BITMASK_RESPONSE_BIT != 0) <;>
    cases h2 : (bs.getD 2 0 &&& BITMASK_ERROR_BIT != 0) <;>
      simp [h1, h2]

lemma parse_ok_inv {b0 b1 b2 b3 b4 b5 b6 b7 : Nat} {s16 d16 : List Nat}
    {e4 e6 : Option IpVersion} {pw : _WireformatHelpers.ParsedWireformat}
    (hs16 : s16.length = 16) (hd16 : d16.length = 16)
    (h : _WireformatHelpers.from_wireformat
      (b0 :: b1 :: b2 :: b3 :: b4 :: b5 :: b6 :: b7 :: (s16 ++ d16)) e4 e6 = .ok pw) :
    b0 = MAGIC_BYTE ∧ b1 = PROTOCOL_VERSION ∧
    MessageType.fromValue (b2 &&& BITMASK_MESSAGE_TYPE_INT) = some pw.message_type ∧
    pw.response_bit = (b2 &&& BITMASK_RESPONSE_BIT != 0) ∧
    pw.error_bit = (b2 &&& BITMASK_ERROR_BIT != 0) ∧
    pw.icmp_bit = (b2 &&& BITMASK_ICMP_BIT != 0) ∧
    pw.cache_lifetime = b3 ∧
    pw.message_identifier = b4 * 16777216 + b5 * 65536 + b6 * 256 + b7 ∧
    _WireformatHelpers._convert_16_bytes_to_optional_ip_address_object s16
      (_MiscHelpers.get_expected_ip_version_for_message_type pw.message_type e4 e6) =
      .ok pw.source_ip_address ∧
    _WireformatHelpers._convert_16_bytes_to_optional_ip_address_object d16
      (_MiscHelpers.get_expected_ip_version_for_message_type pw.message_type e4 e6) =
      .ok pw.destination_ip_address := by
  unfold _WireformatHelpers.from_wireformat _ValidationHelpers.validate_wireformat_size
    _WireformatHelpers._convert_message_type_byte_to_bits_and_message_type at h
  rw [if_neg (by simp [WIREFORMAT_MESSAGE_SIZE, hs16, hd16])] at h
  dsimp only at h
  simp only [List.getD_cons_succ, List.getD_cons_zero, List.drop_succ_cons,
    List.drop_zero] at h
  rw [List.take_left' hs16, List.drop_left' hs16,
    List.take_of_length_le (le_of_eq hd16)] at h
  split at h
  · exact Except.noConfusion h
  · rename_i hb0
    split at h
    · exact Except.noConfusion h
    · rename_i hb1
      cases hfv : MessageType.fromValue (b2 &&& BITMASK_MESSAGE_TYPE_INT) with
      | none =>
        rw [hfv] at h
        exact Except.noConfusion h
      | some mt =>
        rw [hfv] at h
        dsimp only at h
        split at h
        · exact Except.noConfusion h
        · rename_i srcO hsrc
          split at h
          · exact Except.noConfusion h
          · rename_i dstO hdst
            injection h with h
            subst h
            exact ⟨not_not.mp hb0, not_not.mp hb1, rfl, rfl, rfl, rfl, rfl, rfl,
              hsrc, hdst⟩

lemma fromValue_value {n : Nat} {mt : MessageType}
    (h : MessageType.fromValue n = some mt) : n = mt.value := by
  rcases n with _ | _ | _ | _ | _ | n
  · exact Option.noConfusion h
  · injection h with h; rw [← h]; rfl
  · injection h with h; rw [← h]; rfl
  · injection h with h; rw [← h]; rfl
  · injection h with h; rw [← h]; rfl
  · exact Option.noConfusion h

set_option maxRecDepth 8192 in
lemma byte_reconstruct_request (b : Nat) (hb : b < 256) (mt : MessageType)
    (hv : b &&& BITMASK_MESSAGE_TYPE_INT = mt.value)
    (h7 : b &&& BITMASK_RESPONSE_BIT = 0) (h6 : b &&& BITMASK_ERROR_BIT = 0)
    (h5 : b &&& BITMASK_ICMP_BIT = 0) :
    _WireformatHelpers._convert_bits_and_message_type_to_message_type_byte
      false false false mt = b := by
  cases mt
  case MT_4TO6_MAIN_PACKET => exact (by decide : ∀ x : Nat, x < 256 →
    x &&& BITMASK_MESSAGE_TYPE_INT = 1 → x &&& BITMASK_RESPONSE_BIT = 0 →
    x &&& BITMASK_ERROR_BIT = 0 → x &&& BITMASK_ICMP_BIT = 0 →
    _WireformatHelpers._convert_bits_and_message_type_to_message_type_byte
      false false false .MT_4TO6_MAIN_PACKET = x) b hb hv h7 h6 h5
  case MT_4TO6_ICMP_ERROR_PACKET => exact (by decide : ∀ x : Nat, x < 256 →
    x &&& BITMASK_MESSAGE_TYPE_INT = 2 → x &&& BITMASK_RESPONSE_BIT = 0 →
    x &&& BITMASK_ERROR_BIT = 0 → x &&& BITMASK_ICMP_BIT = 0 →
    _WireformatHelpers._convert_bits_and_message_type_to_message_type_byte
      false false false .MT_4TO6_ICMP_ERROR_PACKET = x) b hb hv h7 h6 h5
  case MT_6TO4_MAIN_PACKET => exact (by decide : ∀ x : Nat, x < 256 →
    x &&& BITMASK_MESSAGE_TYPE_INT = 3 → x &&& BITMASK_RESPONSE_BIT = 0 →
    x &&& BITMASK_ERROR_BIT = 0 → x &&& BITMASK_ICMP_BIT = 0 →
    _WireformatHelpers._convert_bits_and_message_type_to_message_type_byte
      false false false .MT_6TO4_MAIN_PACKET = x) b hb hv h7 h6 h5
  case MT_6TO4_ICMP_ERROR_PACKET => exact (by decide : ∀ x : Nat, x < 256 →
    x &&& BITMASK_MESSAGE_TYPE_INT = 4 → x &&& BITMASK_RESPONSE_BIT = 0 →
    x &&& BITMASK_ERROR_BIT = 0 → x &&& BITMASK_ICMP_BIT = 0 →
    _WireformatHelpers._convert_bits_and_message_type_to_message_type_byte
      false false false .MT_6TO4_ICMP_ERROR_PACKET = x) b hb hv h7 h6 h5

set_option maxRecDepth 8192 in
lemma byte_reconstruct_successful (b : Nat) (hb : b < 256) (mt : MessageType)
    (hv : b &&& BITMASK_MESSAGE_TYPE_INT = mt.value)
    (h7 : b &&& BITMASK_RESPONSE_BIT ≠ 0) (h6 : b &&& BITMASK_ERROR_BIT = 0)
    (h5 : b &&& BITMASK_ICMP_BIT = 0) :
    _WireformatHelpers._convert_bits_and_message_type_to_message_type_byte
      true false false mt = b := by
  cases mt
  case MT_4TO6_MAIN_PACKET => exact (by decide : ∀ x : Nat, x < 256 →
    x &&& BITMASK_MESSAGE_TYPE_INT = 1 → x &&& BITMASK_RESPONSE_BIT ≠ 0 →
    x &&& BITMASK_ERROR_BIT = 0 → x &&& BITMASK_ICMP_BIT = 0 →
    _WireformatHelpers._convert_bits_and_message_type_to_message_type_byte
      true false false .MT_4TO6_MAIN_PACKET = x) b hb hv h7 h6 h5
  case MT_4TO6_ICMP_ERROR_PACKET => exact (by decide : ∀ x : Nat, x < 256 →
    x &&& BITMASK_MESSAGE_TYPE_INT = 2 → x &&& BITMASK_RESPONSE_BIT ≠ 0 →
    x &&& BITMASK_ERROR_BIT = 0 → x &&& BITMASK_ICMP_BIT = 0 →
    _WireformatHelpers._convert_bits_and_message_type_to_message_type_byte
      true false false .MT_4TO6_ICMP_ERROR_PACKET = x) b hb hv h7 h6 h5
  case MT_6TO4_MAIN_PACKET => exact (by decide : ∀ x : Nat, x < 256 →
    x &&& BITMASK_MESSAGE_TYPE_INT = 3 → x &&& BITMASK_RESPONSE_BIT ≠ 0 →
    x &&& BITMASK_ERROR_BIT = 0 → x &&& BITMASK_ICMP_BIT = 0 →
    _WireformatHelpers._convert_bits_and_message_type_to_message_type_byte
      true false false .MT_6TO4_MAIN_PACKET = x) b hb hv h7 h6 h5
  case MT_6TO4_ICMP_ERROR_PACKET => exact (by decide : ∀ x : Nat, x < 256 →
    x &&& BITMASK_MESSAGE_TYPE_INT = 4 → x &&& BITMASK_RESPONSE_BIT ≠ 0 →
    x &&& BITMASK_ERROR_BIT = 0 → x &&& BITMASK_ICMP_BIT = 0 →
    _WireformatHelpers._convert_bits_and_message_type_to_message_type_byte
      true false false .MT_6TO4_ICMP_ERROR_PACKET = x) b hb hv h7 h6 h5

set_option maxRecDepth 8192 in
lemma byte_reconstruct_erroneous (b : Nat) (hb : b < 256) (mt : MessageType)
    (hv : b &&& BITMASK_MESSAGE_TYPE_INT = mt.value)
    (h7 : b &&& BITMASK_RESPONSE_BIT ≠ 0) (h6 : b &&& BITMASK_ERROR_BIT ≠ 0) :
    _WireformatHelpers._convert_bits_and_message_type_to_message_type_byte
      true true (b &&& BITMASK_ICMP_BIT != 0) mt = b := by
  cases mt
  case MT_4TO6_MAIN_PACKET => exact (by decide : ∀ x : Nat, x < 256 →
    x &&& BITMASK_MESSAGE_TYPE_INT = 1 → x &&& BITMASK_RESPONSE_BIT ≠ 0 →
    x &&& BITMASK_ERROR_BIT ≠ 0 →
    _WireformatHelpers._convert_bits_and_message_type_to_message_type_byte
      true true (x &&& BITMASK_ICMP_BIT != 0) .MT_4TO6_MAIN_PACKET = x) b hb hv h7 h6
  case MT_4TO6_ICMP_ERROR_PACKET => exact (by decide : ∀ x : Nat, x < 256 →
    x &&& BITMASK_MESSAGE_TYPE_INT = 2 → x &&& BITMASK_RESPONSE_BIT ≠ 0 →
    x &&& BITMASK_ERROR_BIT ≠ 0 →
    _WireformatHelpers._convert_bits_and_message_type_to_message_type_byte
      true true (x &&& BITMASK_ICMP_BIT != 0) .MT_4TO6_ICMP_ERROR_PACKET = x) b hb hv h7 h6
  case MT_6TO4_MAIN_PACKET => exact (by decide : ∀ x : Nat, x < 256 →
    x &&& BITMASK_MESSAGE_TYPE_INT = 3 → x &&& BITMASK_RESPONSE_BIT ≠ 0 →
    x &&& BITMASK_ERROR_BIT ≠ 0 →
    _WireformatHelpers._convert_bits_and_message_type_to_message_type_byte
      true true (x &&& BITMASK_ICMP_BIT != 0) .MT_6TO4_MAIN_PACKET = x) b hb hv h7 h6
  case MT_6TO4_ICMP_ERROR_PACKET => exact (by decide : ∀ x : Nat, x < 256 →
    x &&& BITMASK_MESSAGE_TYPE_INT = 4 → x &&& BITMASK_RESPONSE_BIT ≠ 0 →
    x &&& BITMASK_ERROR_BIT ≠ 0 →
    _WireformatHelpers._convert_bits_and_message_type_to_message_type_byte
      true true (x &&& BITMASK_ICMP_BIT != 0) .MT_6TO4_ICMP_ERROR_PACKET = x) b hb hv h7 h6

lemma to16_conv_v4 {x : List Nat} {a : Option IpAddress} (hx : x.length = 16)
    (h : _WireformatHelpers._convert_16_bytes_to_optional_ip_address_object x (some .V4) =
      .ok a) :
    _WireformatHelpers._convert_optional_ip_address_object_to_16_bytes a = x := by
  unfold _WireformatHelpers._convert_16_bytes_to_optional_ip_address_object at h
  dsimp only at h
  split at h
  · exact Except.noConfusion h
  · rename_i hpad
    injection h with h
    subst h
    unfold _WireformatHelpers._convert_optional_ip_address_object_to_16_bytes
      IpAddress.packed
    dsimp only
    rw [← not_not.mp hpad, List.take_append_drop,
      List.take_of_length_le (le_of_eq hx)]

lemma to16_conv_v6 {x : List Nat} {a : Option IpAddress} (hx : x.length = 16)
    (h : _WireformatHelpers._convert_16_bytes_to_optional_ip_address_object x (some .V6) =
      .ok a) :
    _WireformatHelpers._convert_optional_ip_address_object_to_16_bytes a = x := by
  unfold _WireformatHelpers._convert_16_bytes_to_optional_ip_address_object at h
  dsimp only at h
  injection h with h
  subst h
  unfold _WireformatHelpers._convert_optional_ip_address_object_to_16_bytes
    IpAddress.packed
  dsimp only
  rw [List.take_left' hx]

lemma to16_conv_none {x : List Nat} {a : Option IpAddress}
    (hx : x = List.replicate 16 0)
    (h : _WireformatHelpers._convert_16_bytes_to_optional_ip_address_object x none = .ok a) :
    _WireformatHelpers._convert_optional_ip_address_object_to_16_bytes a = x := by
  injection h with h
  subst h
  rw [hx]
  rfl

lemma request_mk_validated_ok_eq {mt : MessageType} {mid : Nat}
    {s d : IpAddress} {m : RequestMessage}
    (h : RequestMessage.mk_validated mt mid s d = .ok m) : m = ⟨mt, mid, s, d⟩ := by
  unfold RequestMessage.mk_validated at h
  split at h
  · exact Except.noConfusion h
  · split at h
    · exact Except.noConfusion h
    · injection h with h; exact h.symm

lemma erroneous_mk_validated_ok_eq {i : Bool} {mt : MessageType}
    {mid : Nat} {m : ErroneousResponseMessage}
    (h : ErroneousResponseMessage.mk_validated i mt mid = .ok m) : m = ⟨i, mt, mid⟩ := by
  unfold ErroneousResponseMessage.mk_validated at h
  split at h
  · exact Except.noConfusion h
  · split at h
    · exact Except.noConfusion h
    · injection h with h; exact h.symm

/-- C4: for every 40-byte input that decodes successfully and is in canonical
form (all-zero address bytes for an erroneous-response frame, zero
cache-lifetime byte for any frame that is not a successful response; IPv4
padding is already enforced by the decoder), re-encoding the decoded message
reproduces the input bytes exactly. -/
theorem c4_canonical_reencode_roundtrip (bs : List Nat) (m : Message)
    (hbytes : ∀ x ∈ bs, x < 256)
    (hcache : ¬(bs.getD 2 0 &&& BITMASK_RESPONSE_BIT ≠ 0 ∧
        bs.getD 2 0 &&& BITMASK_ERROR_BIT = 0) → bs.getD 3 0 = 0)
    (haddr : (bs.getD 2 0 &&& BITMASK_RESPONSE_BIT ≠ 0 ∧
        bs.getD 2 0 &&& BITMASK_ERROR_BIT ≠ 0) → bs.drop 8 = List.replicate 32 0)
    (hdec : WireformatParsingHelpers.instantiate_appropriate_message_class_from_wireformat
      bs = .ok m) :
    m.to_wireformat = bs := by
  have hlen := instantiate_ok_length hdec
  obtain ⟨b0, b1, b2, b3, b4, b5, b6, b7, rest, rfl, hrest⟩ := cons8_of_length_40 bs hlen
  obtain ⟨s16, d16, rfl, hs16, hd16⟩ :
      ∃ s16 d16, rest = s16 ++ d16 ∧ s16.length = 16 ∧ d16.length = 16 :=
    ⟨rest.take 16, rest.drop 16, (List.take_append_drop 16 rest).symm,
      by simp [List.length_take, hrest], by simp [List.length_drop, hrest]⟩
  simp only [List.getD_cons_succ, List.getD_cons_zero, List.drop_succ_cons,
    List.drop_zero] at hcache haddr
  have hb2 : b2 < 256 := hbytes b2 (by simp)
  have hb4 : b4 < 256 := hbytes b4 (by simp)
  have hb5 : b5 < 256 := hbytes b5 (by simp)
  have hb6 : b6 < 256 := hbytes b6 (by simp)
  have hb7 : b7 < 256 := hbytes b7 (by simp)
  have hlen' : (b0 :: b1 :: b2 :: b3 :: b4 :: b5 :: b6 :: b7 :: (s16 ++ d16)).length = 40 := by
    simp [hs16, hd16]
  have hdet := detect_val hlen'
  simp only [List.getD_cons_succ, List.getD_cons_zero] at hdet
  unfold WireformatParsingHelpers.instantiate_appropriate_message_class_from_wireformat
    at hdec
  rw [hdet] at hdec
  cases hrb : (b2 &&& BITMASK_RESPONSE_BIT != 0) with
  | false =>
    simp only [hrb, Bool.false_eq_true, if_false] at hdec
    cases hX : RequestMessage.from_wireformat
        (b0 :: b1 :: b2 :: b3 :: b4 :: b5 :: b6 :: b7 :: (s16 ++ d16)) with
    | error e => rw [hX] at hdec; exact Except.noConfusion hdec
    | ok q =>
      rw [hX] at hdec
      dsimp only at hdec
      injection hdec with hdec
      subst hdec
      unfold RequestMessage.from_wireformat at hX
      cases hp : _WireformatHelpers.from_wireformat
          (b0 :: b1 :: b2 :: b3 :: b4 :: b5 :: b6 :: b7 :: (s16 ++ d16))
          (some .V4) (some .V6) with
      | error e => rw [hp] at hX; exact Except.noConfusion hX
      | ok pw =>
        rw [hp] at hX
        obtain ⟨hB0, hB1, hFV, hR, hE, hI, hCL, hMID, hSRC, hDST⟩ :=
          parse_ok_inv hs16 hd16 hp
        obtain ⟨r, e_, i, mt, cl, mid, srcO, dstO⟩ := pw
        dsimp only at hR hE hI hCL hMID hSRC hDST hFV hX
        cases srcO with
        | none =>
          cases dstO <;> (dsimp only at hX; exact Except.noConfusion hX)
        | some s =>
          cases dstO with
          | none => dsimp only at hX; exact Except.noConfusion hX
          | some d =>
            dsimp only at hX
            split at hX
            · exact Except.noConfusion hX
            · rename_i hbits
              have hq := request_mk_validated_ok_eq hX
              subst hq
              have hef : e_ = false := by
                cases e_
                · rfl
                · exact absurd (by simp) hbits
              have hif : i = false := by
                cases i
                · rfl
                · exact absurd (by simp) hbits
              have hr0 : b2 &&& BITMASK_RESPONSE_BIT = 0 := by simpa using hrb
              have he0 : b2 &&& BITMASK_ERROR_BIT = 0 := by
                rw [hE] at hef; simpa using hef
              have hi0 : b2 &&& BITMASK_ICMP_BIT = 0 := by
                rw [hI] at hif; simpa using hif
              have hb3 : b3 = 0 := hcache (fun hc => hc.1 hr0)
              have hcode : b2 &&& BITMASK_MESSAGE_TYPE_INT = mt.value := fromValue_value hFV
              have htb := byte_reconstruct_request b2 hb2 mt hcode hr0 he0 hi0
              have hips : _WireformatHelpers._convert_optional_ip_address_object_to_16_bytes
                    (some s) = s16 ∧
                  _WireformatHelpers._convert_optional_ip_address_object_to_16_bytes
                    (some d) = d16 := by
                cases mt <;>
                  dsimp only [_MiscHelpers.get_expected_ip_version_for_message_type]
                    at hSRC hDST
                · exact ⟨to16_conv_v4 hs16 hSRC, to16_conv_v4 hd16 hDST⟩
                · exact ⟨to16_conv_v4 hs16 hSRC, to16_conv_v4 hd16 hDST⟩
                · exact ⟨to16_conv_v6 hs16 hSRC, to16_conv_v6 hd16 hDST⟩
                · exact ⟨to16_conv_v6 hs16 hSRC, to16_conv_v6 hd16 hDST⟩
              subst hMID
              have e4 : (b4 * 16777216 + b5 * 65536 + b6 * 256 + b7) / 16777216 % 256 = b4 :=
                by omega
              have e5 : (b4 * 16777216 + b5 * 65536 + b6 * 256 + b7) / 65536 % 256 = b5 :=
                by omega
              have e6 : (b4 * 16777216 + b5 * 65536 + b6 * 256 + b7) / 256 % 256 = b6 :=
                by omega
              have e7 : (b4 * 16777216 + b5 * 65536 + b6 * 256 + b7) % 256 = b7 := by omega
              show _WireformatHelpers.to_wireformat false false false mt 0
                (b4 * 16777216 + b5 * 65536 + b6 * 256 + b7) (some s) (some d) = _
              rw [to_wireformat_shape, htb, hips.1, hips.2, e4, e5, e6, e7, hB0, hB1, hb3]
  | true =>
    cases heb : (b2 &&& BITMASK_ERROR_BIT != 0) with
    | false =>
      simp only [hrb, heb, eq_self_iff_true, if_true, Bool.false_eq_true,
        if_false] at hdec
      cases hX : SuccessfulResponseMessage.from_wireformat
          (b0 :: b1 :: b2 :: b3 :: b4 :: b5 :: b6 :: b7 :: (s16 ++ d16)) with
      | error e => rw [hX] at hdec; exact Except.noConfusion hdec
      | ok q =>
        rw [hX] at hdec
        dsimp only at hdec
        injection hdec with hdec
        subst hdec
        unfold SuccessfulResponseMessage.from_wireformat at hX
        cases hp : _WireformatHelpers.from_wireformat
            (b0 :: b1 :: b2 :: b3 :: b4 :: b5 :: b6 :: b7 :: (s16 ++ d16))
            (some .V6) (some .V4) with
        | error e => rw [hp] at hX; exact Except.noConfusion hX
        | ok pw =>
          rw [hp] at hX
          obtain ⟨hB0, hB1, hFV, hR, hE, hI, hCL, hMID, hSRC, hDST⟩ :=
            parse_ok_inv hs16 hd16 hp
          obtain ⟨r, e_, i, mt, cl, mid, srcO, dstO⟩ := pw
          dsimp only at hR hE hI hCL hMID hSRC hDST hFV hX
          cases srcO with
          | none =>
            cases dstO <;> (dsimp only at hX; exact Except.noConfusion hX)
          | some s =>
            cases dstO with
            | none => dsimp only at hX; exact Except.noConfusion hX
            | some d =>
              dsimp only at hX
              split at hX
              · exact Except.noConfusion hX
              · rename_i hbits
                have hq := successful_mk_validated_ok_eq hX
                subst hq
                have hef : e_ = false := by
                  cases e_
                  · rfl
                  · exact absurd (by simp) hbits
                have hif : i = false := by
                  cases i
                  · rfl
                  · exact absurd (by simp) hbits
                have hr1 : b2 &&& BITMASK_RESPONSE_BIT ≠ 0 := by simpa using hrb
                have he0 : b2 &&& BITMASK_ERROR_BIT = 0 := by
                  rw [hE] at hef; simpa using hef
                have hi0 : b2 &&& BITMASK_ICMP_BIT = 0 := by
                  rw [hI] at hif; simpa using hif
                have hcode : b2 &&& BITMASK_MESSAGE_TYPE_INT = mt.value :=
                  fromValue_value hFV
                have htb := byte_reconstruct_successful b2 hb2 mt hcode hr1 he0 hi0
                have hips : _WireformatHelpers._convert_optional_ip_address_object_to_16_bytes
                      (some s) = s16 ∧
                    _WireformatHelpers._convert_optional_ip_address_object_to_16_bytes
                      (some d) = d16 := by
                  cases mt <;>
                    dsimp only [_MiscHelpers.get_expected_ip_version_for_message_type]
                      at hSRC hDST
                  · exact ⟨to16_conv_v6 hs16 hSRC, to16_conv_v6 hd16 hDST⟩
                  · exact ⟨to16_conv_v6 hs16 hSRC, to16_conv_v6 hd16 hDST⟩
                  · exact ⟨to16_conv_v4 hs16 hSRC, to16_conv_v4 hd16 hDST⟩
                  · exact ⟨to16_conv_v4 hs16 hSRC, to16_conv_v4 hd16 hDST⟩
                subst hMID
                have e4 : (b4 * 16777216 + b5 * 65536 + b6 * 256 + b7) / 16777216 % 256 =
                    b4 := by omega
                have e5 : (b4 * 16777216 + b5 * 65536 + b6 * 256 + b7) / 65536 % 256 =
                    b5 := by omega
                have e6 : (b4 * 16777216 + b5 * 65536 + b6 * 256 + b7) / 256 % 256 =
                    b6 := by omega
                have e7 : (b4 * 16777216 + b5 * 65536 + b6 * 256 + b7) % 256 = b7 := by
                  omega
                show _WireformatHelpers.to_wireformat true false false mt cl
                  (b4 * 16777216 + b5 * 65536 + b6 * 256 + b7) (some s) (some d) = _
                rw [to_wireformat_shape, htb, hips.1, hips.2, e4, e5, e6, e7, hB0, hB1,
                  hCL]
    | true =>
      simp only [hrb, heb, eq_self_iff_true, if_true] at hdec
      cases hX : ErroneousResponseMessage.from_wireformat
          (b0 :: b1 :: b2 :: b3 :: b4 :: b5 :: b6 :: b7 :: (s16 ++ d16)) with
      | error e => rw [hX] at hdec; exact Except.noConfusion hdec
      | ok q =>
        rw [hX] at hdec
        dsimp only at hdec
        injection hdec with hdec
        subst hdec
        have hr1 : b2 &&& BITMASK_RESPONSE_BIT ≠ 0 := by simpa using hrb
        have he1 : b2 &&& BITMASK_ERROR_BIT ≠ 0 := by simpa using heb
        have hsd : s16 ++ d16 = List.replicate 32 0 := haddr ⟨hr1, he1⟩
        have hsz : s16 = List.replicate 16 0 := by
          have := congrArg (List.take 16) hsd
          rwa [List.take_left' hs16, List.take_replicate] at this
        have hdz : d16 = List.replicate 16 0 := by
          have := congrArg (List.drop 16) hsd
          rwa [List.drop_left' hs16, List.drop_replicate] at this
        unfold ErroneousResponseMessage.from_wireformat at hX
        cases hp : _WireformatHelpers.from_wireformat
            (b0 :: b1 :: b2 :: b3 :: b4 :: b5 :: b6 :: b7 :: (s16 ++ d16)) none none with
        | error e => rw [hp] at hX; exact Except.noConfusion hX
        | ok pw =>
          rw [hp] at hX
          obtain ⟨hB0, hB1, hFV, hR, hE, hI, hCL, hMID, hSRC, hDST⟩ :=
            parse_ok_inv hs16 hd16 hp
          obtain ⟨r, e_, i, mt, cl, mid, srcO, dstO⟩ := pw
          dsimp only at hR hE hI hCL hMID hSRC hDST hFV hX
          rw [get_expected_none mt] at hSRC hDST
          have hsrcO : srcO = none := by
            rw [conv16_none] at hSRC; injection hSRC with hSRC; exact hSRC.symm
          have hdstO : dstO = none := by
            rw [conv16_none] at hDST; injection hDST with hDST; exact hDST.symm
          subst hsrcO
          subst hdstO
          dsimp only at hX
          split at hX
          · exact Except.noConfusion hX
          · have hq := erroneous_mk_validated_ok_eq hX
            subst hq
            have hb3 : b3 = 0 := hcache (fun hc => absurd he1 (fun hne => hne hc.2))
            have hcode : b2 &&& BITMASK_MESSAGE_TYPE_INT = mt.value := fromValue_value hFV
            have htb := byte_reconstruct_erroneous b2 hb2 mt hcode hr1 he1
            subst hMID
            have e4 : (b4 * 16777216 + b5 * 65536 + b6 * 256 + b7) / 16777216 % 256 =
                b4 := by omega
            have e5 : (b4 * 16777216 + b5 * 65536 + b6 * 256 + b7) / 65536 % 256 =
                b5 := by omega
            have e6 : (b4 * 16777216 + b5 * 65536 + b6 * 256 + b7) / 256 % 256 =
                b6 := by omega
            have e7 : (b4 * 16777216 + b5 * 65536 + b6 * 256 + b7) % 256 = b7 := by omega
            show _WireformatHelpers.to_wireformat true true i mt 0
              (b4 * 16777216 + b5 * 65536 + b6 * 256 + b7) none none = _
            rw [hI]
            rw [to_wireformat_shape, htb, e4, e5, e6, e7, hB0, hB1, hb3]
            show _ :: _ :: _ :: _ :: _ :: _ :: _ :: _ ::
              (List.replicate 16 0 ++ List.replicate 16 0) = _
            rw [hsz, hdz]

/-- Witness for C4 at a concrete canonical request frame. -/
theorem c4_canonical_reencode_roundtrip_witness :
    Message.to_wireformat
      (.request ⟨.MT_4TO6_MAIN_PACKET, 1, .v4 [8, 8, 8, 8], .v4 [192, 168, 64, 2]⟩) =
    ((0x54 :: 1 :: 1 :: 0 :: 0 :: 0 :: 0 :: 1 ::
      ([8, 8, 8, 8] ++ List.replicate 12 0 ++ ([192, 168, 64, 2] ++ List.replicate 12 0))) :
      List Nat) :=
  c4_canonical_reencode_roundtrip _ _ (by decide) (fun _ => by decide) (by decide)
    (by decide)
